import Mathlib

/-!
Verification development for the qfix-mapper repository: a shallow embedding of
the classification resolver (src/mapping.py) and of the action-recommendation
merge engine together with the admin mapping endpoint (src/api.py), followed by
theorems checking the specification's claims against the embedded code.

Modelling conventions:
* Python strings are Lean `String`s (sequences of Unicode code points).
* Python `None`-able values are `Option`s; Python truthiness of a string is
  `s ≠ ""`, of an optional string `strTruthy`, of an optional numeric id
  `natTruthy` (both `0` and `None` are falsy).
* Python dicts are association lists with first-binding semantics: `dget` is
  `d.get(k)`, `dset` is `d[k] = v` (replace the binding in place when the key
  is present, append otherwise — exactly a Python dict's insertion-order
  update), `(dget l k).isSome` is `k in d`.
* The module-level mutable maps (CLOTHING_TYPE_MAP, MATERIAL_MAP, the brand
  override dicts, the keyword fallback list) are passed explicitly through a
  `MapState`; `DEFAULT_STATE` is the state right after module import.
* `str.lower()` is modelled on ASCII and Latin-1 letters (the only letters in
  the embedded tables, rules and keywords); `str.strip()` strips ASCII
  whitespace, `\s` of the regexes likewise.
* Prices are modelled as `Option Nat`: the merge engine only ever compares
  them (`price or 9999`).
-/

/-- Python dict lookup `d.get(k)` on an association list (first binding wins). -/
def dget {α β : Type} [DecidableEq α] : List (α × β) → α → Option β
  | [], _ => none
  | (k, v) :: rest, key => if k = key then some v else dget rest key

/-- Python dict update `d[k] = v`: replace the first binding of `k` in place,
append at the end when `k` is absent. -/
def dset {α β : Type} [DecidableEq α] : List (α × β) → α → β → List (α × β)
  | [], key, val => [(key, val)]
  | (k, v) :: rest, key, val =>
      if k = key then (key, val) :: rest else (k, v) :: dset rest key val

/-- Python `d.get(k, default)`. -/
def dgetD {α β : Type} [DecidableEq α] (l : List (α × β)) (key : α) (d : β) : β :=
  (dget l key).getD d

/-- Truthiness of a Python string-or-None value. -/
def strTruthy : Option String → Bool
  | some s => s ≠ ""
  | none => false

/-- Truthiness of a Python numeric-id-or-None value. -/
def natTruthy : Option Nat → Bool
  | some n => n ≠ 0
  | none => false

/-- Collapse `dict.get` on a dict whose values may themselves be `None`. -/
def optFlat : Option (Option String) → Option String
  | some v => v
  | none => none

/-- Whether `needle` is a prefix of the character list. -/
def leadsWith : List Char → List Char → Bool
  | [], _ => true
  | _ :: _, [] => false
  | a :: as, b :: bs => a = b && leadsWith as bs

/-- Scan every suffix of the haystack for `needle` at its head. -/
def hasSubL (needle : List Char) : List Char → Bool
  | [] => leadsWith needle []
  | h :: t => leadsWith needle (h :: t) || hasSubL needle t

/-- Python substring containment `needle in hay`. -/
def hasSub (needle hay : String) : Bool := hasSubL needle.toList hay.toList

/-- Python `str.lower()` on ASCII and Latin-1 letters (`À`–`Þ` except `×` map
down by 32, exactly Unicode's lowercase mapping on that block). -/
def pyLowerChar (c : Char) : Char :=
  if 'A' ≤ c && c ≤ 'Z' then Char.ofNat (c.toNat + 32)
  else if 0xC0 ≤ c.toNat && c.toNat ≤ 0xDE && c.toNat ≠ 0xD7 then Char.ofNat (c.toNat + 32)
  else c

/-- Python `str.lower()`. -/
def pyLowerStr (s : String) : String := String.mk (s.toList.map pyLowerChar)

/-- The characters Python's `str.strip()` and the regex class `\s` treat as
whitespace (ASCII range). -/
def isPySpace (c : Char) : Bool :=
  c = ' ' || c = '\t' || c = '\n' || c = '\r' || c.toNat = 11 || c.toNat = 12

/-- Python `str.strip()`. -/
def pyStrip (s : String) : String :=
  String.mk (((s.toList.dropWhile isPySpace).reverse.dropWhile isPySpace).reverse)

/-- Python `sep.join(parts)`. -/
def joinWith (sep : String) : List String → String
  | [] => ""
  | [x] => x
  | x :: y :: rest => x ++ sep ++ joinWith sep (y :: rest)

/-- Python `str.split(sep)` for a one-character separator, keeping empty
segments; the first argument accumulates the current segment reversed. -/
def splitOnCharAux (sep : Char) : List Char → List Char → List String
  | acc, [] => [String.mk acc.reverse]
  | acc, c :: t =>
    if c = sep then String.mk acc.reverse :: splitOnCharAux sep [] t
    else splitOnCharAux sep (c :: acc) t

/-- Python `str.split(sep)` for a one-character separator. -/
def splitOnChar (sep : Char) (s : String) : List String :=
  splitOnCharAux sep [] s.toList

/-- Python `" ".join(filter(None, xs))`. -/
def joinTruthy (xs : List (Option String)) : String :=
  joinWith " " (xs.filterMap fun o =>
    match o with
    | some s => if s = "" then none else some s
    | none => none)

/-- Python `int` on a nonempty string of decimal digits. -/
def digitsToNat (s : String) : Nat :=
  s.toList.foldl (fun acc c => acc * 10 + (c.toNat - 48)) 0

/-- One step of the stable descending insertion sort: the inserted element is
the original-earlier one, so it goes in front of every element whose key is
less than or equal to its own. -/
def insDesc {α : Type} (key : α → Nat) (x : α) : List α → List α
  | [] => [x]
  | y :: ys => if key y ≤ key x then x :: y :: ys else y :: insDesc key x ys

/-- Stable descending sort by a `Nat` key: Python `sorted(l, key=…,
reverse=True)` (equal keys keep their original relative order). -/
def pySortDesc {α : Type} (key : α → Nat) : List α → List α
  | [] => []
  | x :: xs => insDesc key x (pySortDesc key xs)

/-- Stable ascending insertion for strings. -/
def insAscStr (x : String) : List String → List String
  | [] => [x]
  | y :: ys => if x ≤ y then x :: y :: ys else y :: insAscStr x ys

/-- Python `sorted(strings)`. -/
def pySortStrAsc : List String → List String
  | [] => []
  | x :: xs => insAscStr x (pySortStrAsc xs)

/-- Python `min(l, key=…)`: the first element attaining the minimal key. -/
def pyMinBy {α : Type} (key : α → Nat) : List α → Option α
  | [] => none
  | x :: xs => some (xs.foldl (fun b y => if key y < key b then y else b) x)

/-- Length of the run of characters satisfying `p` at the head of the list. -/
def leadCount (p : Char → Bool) (l : List Char) : Nat := (l.takeWhile p).length

/-- The lookahead `(?=\s+\d{1,3}%)` of map_material's percentage-first regex:
at least one whitespace character, then one to three digits directly followed
by `%` (with more than three digits no split of `\d{1,3}` leaves `%` next). -/
def lookahead1 (s : List Char) : Bool :=
  let r := leadCount isPySpace s
  if r = 0 then false
  else
    let s4 := s.drop r
    let d := leadCount Char.isDigit s4
    1 ≤ d && d ≤ 3 && s4.get? d == some '%'

/-- The terminating alternation `(?:,\s*|(?=\s+\d{1,3}%)|$)` of the
percentage-first regex, tried left to right; on success, the rest of the input
after the match (the lookahead consumes nothing). Python's `$` with no flags
also matches just before a trailing newline. -/
def alts1 : List Char → Option (List Char)
  | ',' :: t => some (t.dropWhile isPySpace)
  | s =>
    if lookahead1 s then some s
    else if s = [] || s = ['\n'] then some s
    else none

/-- The lazy group `(.+?)` of the percentage-first regex: take at least one
character (`.` never matches a newline), try the terminating alternation, and
only extend the group when the alternation fails. -/
def grp1 (acc : List Char) : List Char → Option (List Char × List Char)
  | [] => none
  | c :: rest =>
    if c = '\n' then none
    else
      match alts1 rest with
      | some rest2 => some (acc ++ [c], rest2)
      | none => grp1 (acc ++ [c]) rest

/-- The `\s*` of the percentage-first regex, greedy with backtracking: try
consuming `j` whitespace characters, counting down from the full run
(`s.drop 0 = s`, so the `0` case is the attempt with no whitespace consumed). -/
def ws1 (s : List Char) : Nat → Option (List Char × List Char)
  | 0 => grp1 [] s
  | j + 1 =>
    match grp1 [] (s.drop (j + 1)) with
    | some r => some r
    | none => ws1 s j

/-- Match `(\d{1,3})%\s*(.+?)(?:,\s*|(?=\s+\d{1,3}%)|$)` at the head of the
input: `((pct, name), rest)` on success. `\d{1,3}` is greedy with
backtracking: three digits are tried first, then two, then one. -/
def match1At (s : List Char) : Option ((String × String) × List Char) :=
  [3, 2, 1].findSome? fun k =>
    let ds := s.take k
    if ds.length = k && ds.all Char.isDigit then
      match s.drop k with
      | '%' :: s1 =>
        match ws1 s1 (leadCount isPySpace s1) with
        | some (g2, rest) => some ((String.mk ds, String.mk g2), rest)
        | none => none
      | _ => none
    else none

/-- Fueled left-to-right scan of `re.findall`: take the leftmost match and
continue right after it (every match consumes at least one character, so fuel
`length + 1` is enough). -/
def findall1Aux : Nat → List Char → List (String × String)
  | 0, _ => []
  | _ + 1, [] => []
  | fuel + 1, c :: t =>
    match match1At (c :: t) with
    | some (pr, rest) => pr :: findall1Aux fuel rest
    | none => findall1Aux fuel t

/-- Python `re.findall` for map_material's percentage-first pattern. -/
def findall1 (s : String) : List (String × String) :=
  findall1Aux (s.toList.length + 1) s.toList

/-- `\d{1,3}%` at the head of the input (greedy with backtracking):
`(pct, rest-after-%)`. -/
def digitsPct (s : List Char) : Option (String × List Char) :=
  [3, 2, 1].findSome? fun k =>
    let ds := s.take k
    if ds.length = k && ds.all Char.isDigit then
      match s.drop k with
      | '%' :: r => some (String.mk ds, r)
      | _ => none
    else none

/-- `\s+` (greedy with backtracking, at least one whitespace character) then
`\d{1,3}%`, for the name-first pattern; called with the whitespace run length. -/
def cont2 (s : List Char) : Nat → Option (String × List Char)
  | 0 => none
  | j + 1 =>
    match digitsPct (s.drop (j + 1)) with
    | some r => some r
    | none => cont2 s j

/-- The character class `[A-Za-zÀ-ÿ]` of the name-first pattern. -/
def inClass2 (c : Char) : Bool :=
  ('A' ≤ c && c ≤ 'Z') || ('a' ≤ c && c ≤ 'z') || (0xC0 ≤ c.toNat && c.toNat ≤ 0xFF)

/-- The lazy tail `[A-Za-zÀ-ÿ ]*?` of the name-first pattern: being
lazy it tries the continuation `\s+(\d{1,3})%` before each extension. -/
def grp2 (acc : List Char) : List Char → Option ((String × String) × List Char)
  | [] =>
    match cont2 [] (leadCount isPySpace []) with
    | some (pct, rest) => some ((String.mk acc, pct), rest)
    | none => none
  | c :: t =>
    match cont2 (c :: t) (leadCount isPySpace (c :: t)) with
    | some (pct, rest) => some ((String.mk acc, pct), rest)
    | none => if inClass2 c || c = ' ' then grp2 (acc ++ [c]) t else none

/-- Match `([A-Za-zÀ-ÿ][A-Za-zÀ-ÿ ]*?)\s+(\d{1,3})%` at the
head of the input. -/
def match2At : List Char → Option ((String × String) × List Char)
  | [] => none
  | c :: t => if inClass2 c then grp2 [c] t else none

/-- Fueled scan for the name-first pattern. -/
def findall2Aux : Nat → List Char → List (String × String)
  | 0, _ => []
  | _ + 1, [] => []
  | fuel + 1, c :: t =>
    match match2At (c :: t) with
    | some (pr, rest) => pr :: findall2Aux fuel rest
    | none => findall2Aux fuel t

/-- Python `re.findall` for map_material's name-first pattern, with the pairs
already swapped to `(pct, name)` as map_material consumes them. -/
def findall2 (s : String) : List (String × String) :=
  (findall2Aux (s.toList.length + 1) s.toList).map fun p => (p.2, p.1)

/-- The sort key of map_material's `_resolve`: `int(x[0])`. -/
def pairKey (p : String × String) : Nat := digitsToNat p.1

example : findall1 "75% Bomull, 21% Polyester, 4% Elastan" =
    [("75", "Bomull"), ("21", "Polyester"), ("4", "Elastan")] := by decide

example : findall1 "98% Cotton 2% Elastane" = [("98", "Cotton"), ("2", "Elastane")] := by decide

example : findall1 "Bomull 57%, Polyamid 42%, Elastan 1%" =
    [("57", ", Polyamid"), ("42", ", Elastan")] := by decide

example : findall2 "Bomull 57%, Polyamid 42%, Elastan 1%" =
    [("57", "Bomull"), ("42", "Polyamid"), ("1", "Elastan")] := by decide

example : findall1 "Metall" = [] ∧ findall2 "Metall" = [] := by decide

/-- An action as stored in the ranking lists and produced by the merge engine:
`{id, name, price}`. -/
structure SvcAction where
  id : Nat
  name : String
  price : Option Nat
deriving DecidableEq

/-- One service of a service-category entry of `qfix_services`. -/
structure SvcItem where
  id : Nat
  name : String
  price : Option Nat
deriving DecidableEq

/-- One service-category entry of `qfix_services`: `{slug, services}`. -/
structure SvcCat where
  slug : String
  services : List SvcItem
deriving DecidableEq

/-- One action definition of a KEYWORD_ACTION_RULES entry: `{name, default,
sub_keywords}` (an absent `sub_keywords` is the empty list, which Python's
`.get` treats as falsy just like an absent key). -/
structure KwActionDef where
  name : String
  isDefault : Bool
  sub_keywords : List String
deriving DecidableEq

/-- One entry of KEYWORD_ACTION_RULES. -/
structure KwActionRule where
  keywords : List String
  actions : List KwActionDef
  category : String
deriving DecidableEq

/-- One entry of KEYWORD_EXCLUSION_RULES. -/
structure KwExclRule where
  keywords : List String
  exclude_actions : List String
  category : String
deriving DecidableEq

/-- mapping.py QFIX_CLOTHING_TYPE_IDS_LEGACY: original hand-curated clothing-type IDs. -/
def QFIX_CLOTHING_TYPE_IDS_LEGACY : List (String × Nat) := [
  ("Jacket", 173),
  ("Unlined Jacket / Vest", 62),
  ("Lined Jacket / Vest", 61),
  ("Coat", 60),
  ("Top / T-shirt", 90),
  ("T-shirt", 163),
  ("Shirt / Blouse", 89),
  ("Knitted Jumper", 193),
  ("Sweater", 162),
  ("Sweatshirt / Hoodie", 196),
  ("Midlayer", 161),
  ("Trousers", 174),
  ("Trousers / Shorts", 104),
  ("Skirt / Dress", 66),
  ("Suit", 86),
  ("Swimsuit", 168),
  ("Bikini", 201),
  ("Swimming trunks", 169),
  ("Underwear", 171),
  ("Overall", 175),
  ("Overalls", 160),
  ("Hat", 98),
  ("Cap", 99),
  ("Gloves", 100),
  ("Scarf / Shawl", 101),
  ("Belt", 102),
  ("Handbags", 123),
  ("Other", 105)]

/-- mapping.py VALID_MATERIAL_IDS_LEGACY: legacy valid material IDs per clothing type ID. -/
def VALID_MATERIAL_IDS_LEGACY : List (Nat × List (Nat × String)) := [
  (60, [(69, "Standard textile"), (71, "Leather/Suede"), (72, "Fur"), (73, "Other/Unsure")]),
  (61, [(69, "Standard textile"), (176, "Down"), (71, "Leather/Suede"), (72, "Fur"), (83, "Highvis"), (73, "Other/Unsure")]),
  (62, [(69, "Standard textile"), (71, "Leather/Suede"), (166, "Linen/Wool"), (143, "Galloon"), (83, "Highvis"), (73, "Other/Unsure")]),
  (66, [(69, "Standard textile"), (71, "Leather/Suede"), (166, "Linen/Wool"), (213, "Silk"), (73, "Other/Unsure")]),
  (86, [(69, "Standard textile"), (166, "Linen/Wool"), (159, "Cashmere"), (73, "Other/Unsure")]),
  (89, [(69, "Standard textile"), (166, "Linen/Wool"), (213, "Silk"), (73, "Other/Unsure")]),
  (90, [(69, "Standard textile"), (73, "Other/Unsure")]),
  (98, [(69, "Standard textile"), (72, "Fur"), (73, "Other/Unsure")]),
  (99, [(69, "Standard textile"), (71, "Leather/Suede"), (83, "Highvis"), (73, "Other/Unsure")]),
  (100, [(69, "Standard textile"), (71, "Leather/Suede"), (213, "Silk"), (73, "Other/Unsure")]),
  (101, [(69, "Standard textile"), (166, "Linen/Wool"), (159, "Cashmere"), (72, "Fur"), (213, "Silk"), (73, "Other/Unsure")]),
  (102, [(69, "Standard textile"), (71, "Leather/Suede"), (73, "Other/Unsure")]),
  (104, [(69, "Standard textile"), (73, "Other/Unsure")]),
  (105, [(166, "Linen/Wool"), (213, "Silk"), (214, "Lace"), (215, "Tulle"), (73, "Other/Unsure")]),
  (123, [(69, "Standard textile"), (71, "Leather/Suede"), (73, "Other/Unsure")]),
  (142, [(69, "Standard textile"), (83, "Highvis"), (73, "Other/Unsure")]),
  (160, [(69, "Standard textile"), (176, "Down"), (83, "Highvis"), (144, "Flame resistant"), (73, "Other/Unsure")]),
  (161, [(69, "Standard textile"), (166, "Linen/Wool"), (73, "Other/Unsure")]),
  (162, [(69, "Standard textile"), (73, "Other/Unsure")]),
  (163, [(69, "Standard textile"), (166, "Linen/Wool"), (73, "Other/Unsure")]),
  (168, [(69, "Standard textile"), (213, "Silk"), (73, "Other/Unsure")]),
  (169, [(69, "Standard textile"), (213, "Silk"), (73, "Other/Unsure")]),
  (171, [(69, "Standard textile"), (166, "Linen/Wool"), (213, "Silk"), (73, "Other/Unsure")]),
  (173, [(69, "Standard textile"), (176, "Down"), (71, "Leather/Suede"), (73, "Other/Unsure")]),
  (174, [(69, "Standard textile"), (176, "Down"), (71, "Leather/Suede"), (73, "Other/Unsure")]),
  (175, [(69, "Standard textile"), (176, "Down"), (71, "Leather/Suede"), (83, "Highvis"), (73, "Other/Unsure")]),
  (193, [(69, "Standard textile"), (166, "Linen/Wool"), (73, "Other/Unsure")])]

/-- mapping.py QFIX_SUBCATEGORY_IDS_LEGACY. -/
def QFIX_SUBCATEGORY_IDS_LEGACY : List (String × Nat) := [
  ("Outerwear", 54),
  ("Women's Clothing", 55),
  ("Men's Clothing", 56),
  ("Children's Clothing", 58),
  ("Accessories", 57),
  ("Swimwear / Wet suits", 167)]

/-- mapping.py QFIX_CLOTHING_TYPE_IDS: complete catalog clothing-type IDs. -/
def QFIX_CLOTHING_TYPE_IDS : List (String × Nat) := [
  ("Ancle boots", 205),
  ("Backpack", 121),
  ("Belt", 102),
  ("Bikini", 201),
  ("Boots", 110),
  ("Briefcase", 122),
  ("Cap", 99),
  ("Coat", 60),
  ("Dress Shoes", 111),
  ("Gloves", 100),
  ("Handbags", 123),
  ("Hat", 98),
  ("High heels", 114),
  ("Highvis jacket", 81),
  ("Jacket", 173),
  ("Knee-high boots", 206),
  ("Knitted Jumper", 87),
  ("Large (more than 6sqm)", 130),
  ("Larger Bag / Duffel", 124),
  ("Lined Jacket / Vest", 61),
  ("Medium (3 to 6sqm)", 129),
  ("Midlayer", 161),
  ("Other", 105),
  ("Other shoes", 146),
  ("Others", 200),
  ("Overall", 198),
  ("Overalls", 160),
  ("Rain Jacket", 142),
  ("Rain Trousers", 185),
  ("Rain boots", 148),
  ("Sandals", 165),
  ("Scarf / Shawl", 101),
  ("Shirt / Blouse", 89),
  ("Shirt / t-shirt / Body", 194),
  ("Shirts/t-shirts", 96),
  ("Shoes", 140),
  ("Ski / Shell Trousers", 80),
  ("Ski / Shell jacket", 78),
  ("Skirt / Dress", 66),
  ("Small (less than 3sqm)", 128),
  ("Sneakers", 112),
  ("Suit", 86),
  ("Suit / Smoking", 92),
  ("Sweater", 162),
  ("Sweatshirt / Hoodie", 88),
  ("Swimming trunks", 169),
  ("Swimsuit", 168),
  ("T-shirt", 163),
  ("Top / T-shirt", 90),
  ("Trousers", 174),
  ("Trousers / Shorts", 84),
  ("Underwear", 171),
  ("Unlined Jacket / Vest", 62),
  ("Weekend Bag", 125),
  ("Wet suit", 170),
  ("Winter boots", 145)]

/-- mapping.py VALID_MATERIAL_IDS: valid material IDs per clothing type ID (current catalog). -/
def VALID_MATERIAL_IDS : List (Nat × List (Nat × String)) := [
  (60, [(69, "Standard textile"), (71, "Leather/Suede"), (72, "Fur"), (73, "Other/Unsure")]),
  (61, [(69, "Standard textile"), (176, "Down"), (71, "Leather/Suede"), (72, "Fur"), (83, "Highvis"), (73, "Other/Unsure")]),
  (62, [(69, "Standard textile"), (71, "Leather/Suede"), (166, "Linen/Wool"), (143, "Galloon"), (83, "Highvis"), (73, "Other/Unsure")]),
  (66, [(69, "Standard textile"), (71, "Leather/Suede"), (166, "Linen/Wool"), (213, "Silk"), (73, "Other/Unsure")]),
  (78, [(69, "Standard textile"), (176, "Down"), (73, "Other/Unsure")]),
  (80, [(69, "Standard textile"), (176, "Down"), (73, "Other/Unsure")]),
  (81, [(69, "Standard textile"), (176, "Down"), (143, "Galloon"), (83, "Highvis"), (73, "Other/Unsure")]),
  (82, [(69, "Standard textile"), (83, "Highvis"), (144, "Flame resistant"), (73, "Other/Unsure")]),
  (84, [(69, "Standard textile"), (166, "Linen/Wool"), (73, "Other/Unsure")]),
  (85, [(69, "Standard textile"), (166, "Linen/Wool"), (159, "Cashmere"), (73, "Other/Unsure")]),
  (86, [(69, "Standard textile"), (166, "Linen/Wool"), (159, "Cashmere"), (73, "Other/Unsure")]),
  (87, [(69, "Standard textile"), (166, "Linen/Wool"), (159, "Cashmere"), (73, "Other/Unsure")]),
  (88, [(69, "Standard textile"), (73, "Other/Unsure")]),
  (89, [(69, "Standard textile"), (166, "Linen/Wool"), (213, "Silk"), (73, "Other/Unsure")]),
  (90, [(69, "Standard textile"), (73, "Other/Unsure")]),
  (91, [(69, "Standard textile"), (166, "Linen/Wool"), (73, "Other/Unsure")]),
  (92, [(69, "Standard textile"), (166, "Linen/Wool"), (73, "Other/Unsure")]),
  (93, [(69, "Standard textile"), (166, "Linen/Wool"), (73, "Other/Unsure")]),
  (94, [(69, "Standard textile"), (166, "Linen/Wool"), (73, "Other/Unsure")]),
  (95, [(69, "Standard textile"), (166, "Linen/Wool"), (159, "Cashmere"), (73, "Other/Unsure")]),
  (96, [(69, "Standard textile"), (166, "Linen/Wool"), (159, "Cashmere"), (213, "Silk"), (73, "Other/Unsure")]),
  (98, [(69, "Standard textile"), (72, "Fur"), (73, "Other/Unsure")]),
  (99, [(69, "Standard textile"), (71, "Leather/Suede"), (83, "Highvis"), (73, "Other/Unsure")]),
  (100, [(69, "Standard textile"), (71, "Leather/Suede"), (213, "Silk"), (73, "Other/Unsure")]),
  (101, [(69, "Standard textile"), (166, "Linen/Wool"), (159, "Cashmere"), (72, "Fur"), (213, "Silk"), (73, "Other/Unsure")]),
  (102, [(69, "Standard textile"), (71, "Leather/Suede"), (73, "Other/Unsure")]),
  (103, [(69, "Standard textile"), (166, "Linen/Wool"), (73, "Other/Unsure")]),
  (104, [(69, "Standard textile"), (73, "Other/Unsure")]),
  (105, [(166, "Linen/Wool"), (213, "Silk"), (214, "Lace"), (215, "Tulle"), (73, "Other/Unsure")]),
  (110, [(189, "Standard textile"), (187, "Leather"), (191, "Other/Unsure")]),
  (111, [(187, "Leather"), (188, "Suede"), (191, "Other/Unsure")]),
  (112, [(189, "Standard textile"), (188, "Suede"), (191, "Other/Unsure")]),
  (113, [(189, "Standard textile"), (187, "Leather"), (188, "Suede"), (191, "Other/Unsure")]),
  (114, [(187, "Leather"), (188, "Suede"), (191, "Other/Unsure")]),
  (115, [(189, "Standard textile"), (188, "Suede"), (191, "Other/Unsure")]),
  (116, [(187, "Leather"), (188, "Suede"), (191, "Other/Unsure")]),
  (121, [(69, "Standard textile"), (71, "Leather/Suede"), (73, "Other/Unsure")]),
  (122, [(69, "Standard textile"), (71, "Leather/Suede"), (73, "Other/Unsure")]),
  (123, [(69, "Standard textile"), (71, "Leather/Suede"), (73, "Other/Unsure")]),
  (124, [(69, "Standard textile"), (71, "Leather/Suede"), (73, "Other/Unsure")]),
  (125, [(69, "Standard textile"), (71, "Leather/Suede"), (73, "Other/Unsure")]),
  (138, [(189, "Standard textile"), (187, "Leather"), (191, "Other/Unsure")]),
  (140, [(189, "Standard textile"), (187, "Leather"), (191, "Other/Unsure")]),
  (141, [(189, "Standard textile"), (187, "Leather"), (188, "Suede"), (191, "Other/Unsure")]),
  (142, [(69, "Standard textile"), (83, "Highvis"), (73, "Other/Unsure")]),
  (145, [(189, "Standard textile"), (187, "Leather"), (191, "Other/Unsure")]),
  (146, [(189, "Standard textile"), (187, "Leather"), (188, "Suede"), (191, "Other/Unsure")]),
  (147, [(190, "Galloon"), (191, "Other/Unsure")]),
  (148, [(190, "Galloon"), (191, "Other/Unsure")]),
  (149, [(190, "Galloon"), (191, "Other/Unsure")]),
  (150, [(190, "Galloon"), (191, "Other/Unsure")]),
  (160, [(69, "Standard textile"), (176, "Down"), (83, "Highvis"), (144, "Flame resistant"), (73, "Other/Unsure")]),
  (161, [(69, "Standard textile"), (166, "Linen/Wool"), (73, "Other/Unsure")]),
  (162, [(69, "Standard textile"), (73, "Other/Unsure")]),
  (163, [(69, "Standard textile"), (166, "Linen/Wool"), (73, "Other/Unsure")]),
  (164, [(189, "Standard textile"), (187, "Leather"), (188, "Suede"), (191, "Other/Unsure")]),
  (165, [(189, "Standard textile"), (187, "Leather"), (188, "Suede"), (191, "Other/Unsure")]),
  (168, [(69, "Standard textile"), (213, "Silk"), (73, "Other/Unsure")]),
  (169, [(69, "Standard textile"), (213, "Silk"), (73, "Other/Unsure")]),
  (170, [(69, "Standard textile"), (73, "Other/Unsure")]),
  (171, [(69, "Standard textile"), (166, "Linen/Wool"), (213, "Silk"), (73, "Other/Unsure")]),
  (173, [(69, "Standard textile"), (176, "Down"), (71, "Leather/Suede"), (73, "Other/Unsure")]),
  (174, [(69, "Standard textile"), (176, "Down"), (71, "Leather/Suede"), (73, "Other/Unsure")]),
  (175, [(69, "Standard textile"), (176, "Down"), (71, "Leather/Suede"), (83, "Highvis"), (73, "Other/Unsure")]),
  (182, [(189, "Standard textile"), (187, "Leather"), (191, "Other/Unsure")]),
  (183, [(189, "Standard textile"), (187, "Leather"), (191, "Other/Unsure")]),
  (185, [(69, "Standard textile"), (143, "Galloon"), (83, "Highvis"), (73, "Other/Unsure")]),
  (193, [(69, "Standard textile"), (166, "Linen/Wool"), (73, "Other/Unsure")]),
  (194, [(69, "Standard textile"), (73, "Other/Unsure")]),
  (195, [(69, "Standard textile"), (166, "Linen/Wool"), (73, "Other/Unsure")]),
  (196, [(69, "Standard textile"), (73, "Other/Unsure")]),
  (198, [(69, "Standard textile"), (176, "Down"), (83, "Highvis"), (144, "Flame resistant"), (73, "Other/Unsure")]),
  (199, [(69, "Standard textile"), (166, "Linen/Wool"), (73, "Other/Unsure")]),
  (200, [(69, "Standard textile"), (71, "Leather/Suede"), (166, "Linen/Wool"), (72, "Fur"), (144, "Flame resistant"), (73, "Other/Unsure")]),
  (201, [(69, "Standard textile"), (213, "Silk"), (73, "Other/Unsure")]),
  (202, [(71, "Leather/Suede"), (166, "Linen/Wool"), (83, "Highvis"), (144, "Flame resistant"), (73, "Other/Unsure")]),
  (203, [(71, "Leather/Suede"), (83, "Highvis"), (144, "Flame resistant"), (73, "Other/Unsure")]),
  (205, [(189, "Standard textile"), (187, "Leather"), (188, "Suede"), (191, "Other/Unsure")]),
  (206, [(189, "Standard textile"), (187, "Leather"), (188, "Suede")])]

/-- mapping.py QFIX_SUBCATEGORY_IDS. -/
def QFIX_SUBCATEGORY_IDS : List (String × Nat) := [
  ("Outerwear", 54),
  ("Women's Clothing", 55),
  ("Men's Clothing", 56),
  ("Accessories", 57),
  ("Children's Clothing", 58),
  ("Workwear", 59),
  ("Backpack", 75),
  ("Men's Shoes", 106),
  ("Women's Shoes", 107),
  ("Children's Shoes", 108),
  ("Workwear Shoes", 109),
  ("Briefcase", 117),
  ("Handbags", 118),
  ("Larger bag / Duffel", 119),
  ("Weekend Bag", 120),
  ("Handmade carpet", 126),
  ("Other Carpet", 127),
  ("Swimwear / Wet suits", 167),
  ("Protective / MC wear", 172),
  ("Carpet with rubber bottom", 177),
  ("Protective / MC shoes", 181),
  ("Riding boots", 204)]

/-- mapping.py CLOTHING_TYPE_MAP: scraper clothing-type text to QFix name (None = known non-clothing). -/
def CLOTHING_TYPE_MAP : List (String × Option String) := [
  ("jackor & rockar", some "Jacket"),
  ("jackor & kappor", some "Jacket"),
  ("västar", some "Unlined Jacket / Vest"),
  ("rockar", some "Coat"),
  ("ytterplagg", some "Jacket"),
  ("ytterkläder", some "Jacket"),
  ("toppar", some "Top / T-shirt"),
  ("toppar & t-shirts", some "Top / T-shirt"),
  ("t-shirts & pikétröjor", some "T-shirt"),
  ("skjortor", some "Shirt / Blouse"),
  ("skjortor & blusar", some "Shirt / Blouse"),
  ("blusar", some "Shirt / Blouse"),
  ("basplagg", some "Top / T-shirt"),
  ("tröjor & cardigans", some "Knitted Jumper"),
  ("tröjor & koftor", some "Knitted Jumper"),
  ("hoodies & sweatshirts", some "Sweatshirt / Hoodie"),
  ("jeans", some "Trousers"),
  ("byxor", some "Trousers"),
  ("byxor & jeans", some "Trousers"),
  ("shorts", some "Trousers / Shorts"),
  ("klänningar & kjolar", some "Skirt / Dress"),
  ("klänningar", some "Skirt / Dress"),
  ("kjolar", some "Skirt / Dress"),
  ("kostymer", some "Suit"),
  ("kavajer", some "Suit"),
  ("kavajer, västar & kostymer", some "Suit"),
  ("badkläder", some "Swimsuit"),
  ("badkläder & uv", some "Swimsuit"),
  ("bikini", some "Bikini"),
  ("underkläder", some "Underwear"),
  ("sovkläder", some "Underwear"),
  ("pyjamas", some "Underwear"),
  ("loungewear", some "Sweatshirt / Hoodie"),
  ("bodys", some "Underwear"),
  ("strumpor & strumpbyxor", some "Underwear"),
  ("underställ & fleece", some "Midlayer"),
  ("jumpsuits", some "Overall"),
  ("träningskläder", some "Sweatshirt / Hoodie"),
  ("mammakläder", some "Trousers"),
  ("skor & tofflor", some "Sneakers"),
  ("businesskjortor", some "Shirt / Blouse"),
  ("casualskjortor", some "Shirt / Blouse"),
  ("frack- och smokingskjortor", some "Shirt / Blouse"),
  ("jackor & overshirts", some "Jacket"),
  ("knitwear", some "Knitted Jumper"),
  ("polo shirts", some "Top / T-shirt"),
  ("t-shirt", some "T-shirt"),
  ("vests", some "Unlined Jacket / Vest"),
  ("trojor", some "Knitted Jumper"),
  ("klanningarjumpsuits", some "Skirt / Dress"),
  ("blusarskjortor", some "Shirt / Blouse"),
  ("coatsjackets", some "Jacket"),
  ("vaskorplanbocker", some "Handbags"),
  ("mossorvantar", some "Hat"),
  ("scarveshalsdukar", some "Scarf / Shawl"),
  ("badklader", some "Swimsuit"),
  ("skor", some "Sneakers"),
  ("balten", some "Belt"),
  ("knitted", some "Knitted Jumper"),
  ("festklader", some "Skirt / Dress"),
  ("necessarer", none),
  ("ovrigaaccessoarer", none),
  ("nyaaccessoarer", none),
  ("mobiltillbehor", none),
  ("bag-charms", none),
  ("beauty", none),
  ("printworks", none),
  ("self-care", none),
  ("underklader", some "Underwear"),
  ("vantar", some "Gloves"),
  ("solglasogon", none),
  ("haraccessoarer", none),
  ("seallaklader", none),
  ("matchande-set", none),
  ("blue-light-glasogon", none),
  ("blue-light-glasögon", none),
  ("blusar skjortor", some "Shirt / Blouse"),
  ("toppar t shirts", some "Top / T-shirt"),
  ("trojor cardigans", some "Knitted Jumper"),
  ("kavajer tunna jackor", some "Suit"),
  ("ytterklader", some "Jacket"),
  ("vastar", some "Unlined Jacket / Vest"),
  ("shorts cykelbyxor", some "Trousers / Shorts"),
  ("byxor leggings", some "Trousers"),
  ("klanningar kjolar", some "Skirt / Dress"),
  ("klanningar tunikor", some "Skirt / Dress"),
  ("klanningar", some "Skirt / Dress"),
  ("jumpsuits onesies", some "Overall"),
  ("onesies", some "Overall"),
  ("bodies", some "Underwear"),
  ("strumpor strumpbyxor", some "Underwear"),
  ("strumpbyxor leggings", some "Underwear"),
  ("strumpor", some "Underwear"),
  ("trosor", some "Underwear"),
  ("bh", some "Underwear"),
  ("sovklader", some "Underwear"),
  ("linnen", some "Underwear"),
  ("morgonrockar", some "Underwear"),
  ("shaping", some "Underwear"),
  ("underklanningar", some "Underwear"),
  ("ullunderstall", some "Midlayer"),
  ("performancewear", some "Sweatshirt / Hoodie"),
  ("trojor koftor", some "Knitted Jumper"),
  ("skjortor blusar", some "Shirt / Blouse"),
  ("mammaunderklader", some "Underwear"),
  ("mammaklader", some "Trousers"),
  ("traningsklader", some "Sweatshirt / Hoodie"),
  ("badklader uv", some "Swimsuit"),
  ("tofflor", some "Other shoes"),
  ("nyfodd", some "Underwear"),
  ("klimakterieklader", some "Underwear"),
  ("set", some "Other"),
  ("flerpack", some "Other"),
  ("kommer snart", none),
  ("bastsaljare", none),
  ("utvalda nyheter", none),
  ("premium quality", none),
  ("hollywhyte", none),
  ("basgarderoben", none),
  ("bh guide", none),
  ("kladvard", none),
  ("tillbehor", none),
  ("casual comfort", none),
  ("classic", none),
  ("feminine", none),
  ("preppy", none),
  ("oncemore", none),
  ("femaleengineering", none),
  ("closely", none),
  ("linen collection", none),
  ("nyheter", none),
  ("basplagg 3 for 2", none),
  ("outfits pa sociala medier", none),
  ("trosguide", none),
  ("byxguide", none),
  ("menstrosor guide", none),
  ("ellam", none),
  ("present baby", none),
  ("lindex", none),
  ("alla hjaertans dag", none),
  ("hellokitty", none),
  ("moomin", none),
  ("pawpatrol", none),
  ("gabbysdollhouse", none),
  ("lilostich", none),
  ("minecraft", none),
  ("bluey", none),
  ("capyfun", none),
  ("fallguys", none),
  ("hotwheels", none),
  ("pokemon", none),
  ("tocaboca", none),
  ("ninjago", none),
  ("sonic", none),
  ("2 8 ar", none),
  ("9 14 ar", none),
  ("men's jeans", some "Trousers"),
  ("women's jeans", some "Trousers"),
  ("women's pants", some "Trousers"),
  ("women's socks", some "Underwear"),
  ("accessoarer", none),
  ("mössor, hattar & kepsar", some "Hat"),
  ("kepsar", some "Cap"),
  ("vantar & handskar", some "Gloves"),
  ("handskar & vantar", some "Gloves"),
  ("scarves", some "Scarf / Shawl"),
  ("halsdukar & sjalar", some "Scarf / Shawl"),
  ("bälten", some "Belt"),
  ("väskor & plånböcker", some "Handbags"),
  ("solglasögon", none),
  ("smycken", none),
  ("håraccessoarer", none),
  ("klädvård", none)]

/-- mapping.py ACCESSORY_SUB_MAP. -/
def ACCESSORY_SUB_MAP : List (String × String) := [
  ("vantar & handskar", "Gloves"),
  ("handskar & vantar", "Gloves"),
  ("vantar", "Gloves"),
  ("handskar", "Gloves"),
  ("mössor, hattar & kepsar", "Hat"),
  ("kepsar & hattar", "Hat"),
  ("mössor, kepsar & hattar", "Hat"),
  ("mössor", "Hat"),
  ("hattar", "Hat"),
  ("kepsar", "Cap"),
  ("solhattar", "Hat"),
  ("halsdukar & sjalar", "Scarf / Shawl"),
  ("halsdukar", "Scarf / Shawl"),
  ("sjalar", "Scarf / Shawl"),
  ("bälten", "Belt"),
  ("väskor & plånböcker", "Handbags"),
  ("väskor", "Handbags"),
  ("ryggsäckar", "Handbags")]

/-- mapping.py MATERIAL_MAP: material name to QFix material (None = known non-textile). -/
def MATERIAL_MAP : List (String × Option String) := [
  ("polyester", some "Standard textile"),
  ("återvunnen polyester", some "Standard textile"),
  ("bomull", some "Standard textile"),
  ("ekologisk bomull", some "Standard textile"),
  ("återvunnen bomull", some "Standard textile"),
  ("polyamid", some "Standard textile"),
  ("återvunnen polyamid", some "Standard textile"),
  ("elastan", some "Standard textile"),
  ("viskos", some "Standard textile"),
  ("modal", some "Standard textile"),
  ("lyocell", some "Standard textile"),
  ("tencel", some "Standard textile"),
  ("akryl", some "Standard textile"),
  ("nylon", some "Standard textile"),
  ("regenererad nylon", some "Standard textile"),
  ("rayon", some "Standard textile"),
  ("hampa", some "Standard textile"),
  ("ramie", some "Standard textile"),
  ("cotton", some "Standard textile"),
  ("organic cotton", some "Standard textile"),
  ("recycled cotton", some "Standard textile"),
  ("polyamide", some "Standard textile"),
  ("elastane", some "Standard textile"),
  ("viscose", some "Standard textile"),
  ("acrylic", some "Standard textile"),
  ("hemp", some "Standard textile"),
  ("lin", some "Linen/Wool"),
  ("linne", some "Linen/Wool"),
  ("ull", some "Linen/Wool"),
  ("certifierad ull", some "Linen/Wool"),
  ("återvunnen ull", some "Linen/Wool"),
  ("linen", some "Linen/Wool"),
  ("wool", some "Linen/Wool"),
  ("kashmir", some "Cashmere"),
  ("kasjmir", some "Cashmere"),
  ("cashmere", some "Cashmere"),
  ("siden", some "Silk"),
  ("silke", some "Silk"),
  ("silk", some "Silk"),
  ("läder", some "Leather/Suede"),
  ("skinn", some "Leather/Suede"),
  ("vegetabiliskt garvat", some "Leather/Suede"),
  ("leather", some "Leather/Suede"),
  ("suede", some "Leather/Suede"),
  ("polyuretan", some "Standard textile"),
  ("polyuretane", some "Standard textile"),
  ("mocka", some "Leather/Suede"),
  ("merinoull", some "Linen/Wool"),
  ("merino wool", some "Linen/Wool"),
  ("alpaca", some "Linen/Wool"),
  ("alpacka", some "Linen/Wool"),
  ("yak", some "Linen/Wool"),
  ("mohair", some "Linen/Wool"),
  ("angora", some "Linen/Wool"),
  ("spandex", some "Standard textile"),
  ("cupro", some "Standard textile"),
  ("pet", some "Standard textile"),
  ("resår", some "Standard textile"),
  ("silikongummi", none),
  ("narvläder (nöt)", some "Leather/Suede"),
  ("nötmocka", some "Leather/Suede"),
  ("spaltläder (nöt)", some "Leather/Suede"),
  ("papper", none),
  ("trä", none),
  ("pctg", none),
  ("glas", none),
  ("glass", none),
  ("dun", some "Down"),
  ("down", some "Down"),
  ("metall", none),
  ("plast", none),
  ("polykarbonat", none),
  ("legering", none),
  ("järn", none),
  ("rostfritt stål", none),
  ("cellulospropionat", none),
  ("cubic zirconia", none),
  ("strå", none),
  ("kosmetik", none),
  ("925 sterling silver", none),
  ("18k guld", none),
  ("återvunnen metall", none),
  ("mässing", none),
  ("zink", none),
  ("silver", none),
  ("guld", none),
  ("koppar", none),
  ("stål", none)]

/-- mapping.py CATEGORY_MAP: category to QFix L2 subcategory name. -/
def CATEGORY_MAP : List (String × String) := [
  ("dam", "Women's Clothing"),
  ("herr", "Men's Clothing"),
  ("barn", "Children's Clothing"),
  ("baby", "Children's Clothing"),
  ("women", "Women's Clothing"),
  ("men", "Men's Clothing"),
  ("men's jeans", "Men's Clothing"),
  ("women's jeans", "Women's Clothing"),
  ("kids", "Children's Clothing"),
  ("jeans", "Men's Clothing"),
  ("businesskjortor", "Men's Clothing"),
  ("casualskjortor", "Men's Clothing"),
  ("accessoarer", "Accessories"),
  ("underklader", "Women's Clothing")]

/-- mapping.py KEYWORD_CLOTHING_MAP (source name with a leading underscore): ordered
keyword fallback, first match wins. -/
def KEYWORD_CLOTHING_MAP : List (String × String) := [
  ("dungarees", "Overall"),
  ("boilersuit", "Overall"),
  ("hoodie", "Sweatshirt / Hoodie"),
  ("sweatshirt", "Sweatshirt / Hoodie"),
  ("denim jacket", "Jacket"),
  ("blazer", "Suit"),
  ("jacket", "Jacket"),
  ("t-shirt", "T-shirt"),
  ("tee ", "T-shirt"),
  (" tee", "T-shirt"),
  ("tank top", "Top / T-shirt"),
  ("henley", "Top / T-shirt"),
  ("skjorta", "Shirt / Blouse"),
  ("shirt", "Shirt / Blouse"),
  ("knit", "Knitted Jumper"),
  ("sweater", "Sweater"),
  ("shorts", "Trousers / Shorts"),
  ("jeans", "Trousers"),
  ("pants", "Trousers"),
  ("skirt", "Skirt / Dress"),
  ("dress", "Skirt / Dress"),
  ("belt", "Belt"),
  ("wallet", "Handbags"),
  ("bag", "Handbags"),
  ("beanie", "Hat"),
  ("bucket hat", "Hat"),
  ("bandana", "Scarf / Shawl"),
  ("sock", "Underwear"),
  ("boxer", "Underwear"),
  ("briefs", "Underwear"),
  ("sweat ", "Sweatshirt / Hoodie"),
  (" zip ", "Sweatshirt / Hoodie"),
  ("easy alvin", "Trousers"),
  ("grim tim", "Trousers"),
  ("gritty jackson", "Trousers"),
  ("lean dean", "Trousers"),
  ("loud larry", "Trousers"),
  ("rad rufus", "Trousers"),
  ("slim jim", "Trousers"),
  ("solid ollie", "Trousers"),
  ("steady eddie", "Trousers"),
  ("tight terry", "Trousers"),
  ("tuff tony", "Trousers"),
  ("flare glenn", "Trousers"),
  ("breezy britt", "Trousers"),
  ("clean eileen", "Trousers"),
  ("dusty dee", "Trousers"),
  ("lofty lo", "Trousers"),
  ("sonic sue", "Trousers"),
  ("wide heidi", "Trousers"),
  ("tiny tony", "Trousers"),
  ("tiny turner", "Trousers"),
  ("denim", "Trousers"),
  ("joni ", "T-shirt"),
  ("roger slub", "T-shirt"),
  ("roffe slub", "T-shirt")]

/-- mapping.py CLOTHING_TYPE_OVERRIDES (source name with a leading underscore):
subcategory-aware clothing type ID overrides. -/
def CLOTHING_TYPE_OVERRIDES : List (String × List (String × Nat)) := [
  ("Men's Clothing", [("Shirt / Blouse", 96),
    ("Top / T-shirt", 96),
    ("T-shirt", 96),
    ("Trousers / Shorts", 91),
    ("Sweatshirt / Hoodie", 94),
    ("Knitted Jumper", 95),
    ("Jacket", 93),
    ("Suit", 92)]),
  ("Women's Clothing", [("T-shirt", 90)]),
  ("Children's Clothing", [("Shirt / Blouse", 194),
    ("Top / T-shirt", 194),
    ("T-shirt", 194),
    ("Trousers / Shorts", 104),
    ("Sweatshirt / Hoodie", 196),
    ("Knitted Jumper", 193),
    ("Jacket", 103),
    ("Suit", 195)])]

/-- api.py KEYWORD_ACTION_RULES: keyword-driven action injection rules. -/
def KEYWORD_ACTION_RULES : List KwActionRule := [
  ⟨["dragkedja", "zipper", "blixtlås", "zip"],
    [⟨"Replace zipper", true, []⟩,
      ⟨"Replace main zipper", false, ["jacka", "jacket", "coat", "kappa", "rock"]⟩,
      ⟨"Replace zipper slider", false, ["slider", "dragare", "rits"]⟩],
    "repair"⟩,
  ⟨["knapp", "knappar", "button", "buttons"],
    [⟨"Replace button", true, []⟩,
      ⟨"Replace snap button", false, ["tryck", "snap", "press"]⟩,
      ⟨"Replace jeans button", false, ["jeans", "denim", "jean"]⟩,
      ⟨"Place new button", false, []⟩,
      ⟨"Exchange button", false, []⟩],
    "repair"⟩,
  ⟨["spänne", "buckle"],
    [⟨"Replace buckle", true, []⟩],
    "repair"⟩,
  ⟨["foder", "lining", "fodrad"],
    [⟨"Replace lining", true, []⟩,
      ⟨"Attach new inner lining", false, []⟩],
    "repair"⟩,
  ⟨["resår", "elastic", "elastisk"],
    [⟨"Replace elastic", true, []⟩],
    "repair"⟩,
  ⟨["kardborre", "velcro"],
    [⟨"Replace velcro", true, []⟩],
    "repair"⟩,
  ⟨["reflex", "reflexer", "reflective"],
    [⟨"Replace reflectors", true, []⟩],
    "repair"⟩,
  ⟨["läder", "leather", "skinn", "mocka", "suede", "nubuck"],
    [⟨"Clean and condition", true, []⟩],
    "care"⟩,
  ⟨["dun", "dunfyllning", "down filled", "down jacket"],
    [⟨"Dry cleaning", true, []⟩],
    "care"⟩,
  ⟨["impregnera", "waterproof", "vattentät", "gore-tex", "shell"],
    [⟨"Waterproofing", true, []⟩],
    "care"⟩]

/-- api.py KEYWORD_EXCLUSION_RULES: keyword-driven action exclusion rules. -/
def KEYWORD_EXCLUSION_RULES : List KwExclRule := [
  ⟨["väst", "vest", "gilet", "bodywarmer"],
    ["Shorten sleeves", "Lengthen sleeves"],
    "adjustment"⟩,
  ⟨["väst", "vest", "gilet", "bodywarmer"],
    ["Tapering legs", "Shorten legs", "Lengthen legs"],
    "adjustment"⟩,
  ⟨["linne", "singlet", "tank top", "ärmlös", "sleeveless", "bandeau", "tubtopp"],
    ["Shorten sleeves", "Lengthen sleeves"],
    "adjustment"⟩,
  ⟨["shorts"],
    ["Tapering legs"],
    "adjustment"⟩,
  ⟨["kjol", "skirt"],
    ["Shorten sleeves", "Lengthen sleeves", "Tapering legs"],
    "adjustment"⟩,
  ⟨["badshorts", "swim shorts", "badbyxor"],
    ["Replace zipper", "Replace main zipper", "Replace zipper slider"],
    "repair"⟩,
  ⟨["badshorts", "swim shorts", "badbyxor"],
    ["Narrow shoulder area", "Shorten sleeves", "Lengthen sleeves", "Shorten length"],
    "adjustment"⟩,
  ⟨["bikini", "baddräkt", "swimsuit", "badedrakt"],
    ["Shorten sleeves", "Lengthen sleeves", "Tapering legs", "Shorten length"],
    "adjustment"⟩,
  ⟨["strumpor", "socks", "sockor", "strumpa"],
    ["Take in waist", "Expand waist", "Take in sides", "Shorten length", "Take in the back", "Narrow shoulder area", "Shorten sleeves", "Lengthen sleeves", "Tapering legs"],
    "adjustment"⟩,
  ⟨["strumpbyxa", "strumpbyxor", "tights", "pantyhose"],
    ["Take in waist", "Expand waist", "Take in sides", "Shorten length", "Take in the back", "Narrow shoulder area", "Shorten sleeves", "Lengthen sleeves", "Tapering legs"],
    "adjustment"⟩,
  ⟨["poncho"],
    ["Shorten sleeves", "Lengthen sleeves"],
    "adjustment"⟩,
  ⟨["cape"],
    ["Shorten sleeves", "Lengthen sleeves"],
    "adjustment"⟩,
  ⟨["leggings"],
    ["Tapering legs"],
    "adjustment"⟩,
  ⟨["leggings"],
    ["Replace main zipper", "Replace zipper", "Replace zipper slider"],
    "repair"⟩,
  ⟨["bandeau", "tubtopp", "tube top", "strapless"],
    ["Narrow shoulder area"],
    "adjustment"⟩,
  ⟨["träningstights", "traningstights", "cykelbyxa", "cykelbyxor", "cycling shorts"],
    ["Shorten sleeves", "Lengthen sleeves", "Narrow shoulder area"],
    "adjustment"⟩,
  ⟨["träningstights", "traningstights", "cykelbyxa", "cykelbyxor", "cycling shorts"],
    ["Replace main zipper", "Replace zipper", "Replace zipper slider"],
    "repair"⟩]


/-- mapping.py SKIP_SEGMENTS. -/
def SKIP_SEGMENTS : List String := ["dam", "herr", "barn", "baby"]

/-- The process-wide mutable module state of mapping.py: the admin-editable
global maps and the per-brand override dicts (all empty right after import). -/
structure MapState where
  ctm : List (String × Option String)
  gkw : List (String × String)
  brandExact : List (String × List (String × String))
  brandKw : List (String × List (String × String))
  mm : List (String × Option String)
  brandMat : List (String × List (String × String))

/-- The module state right after import: the static tables, no brand
overrides. -/
def DEFAULT_STATE : MapState :=
  ⟨CLOTHING_TYPE_MAP, KEYWORD_CLOTHING_MAP, [], [], MATERIAL_MAP, []⟩

/-- First keyword of an ordered `(keyword, type)` list that is a substring of
`txt` (the keyword fallback loops of map_clothing_type). -/
def kwScan (rules : List (String × String)) (txt : String) : Option String :=
  match rules with
  | [] => none
  | (kw, ty) :: rest => if hasSub kw txt then some ty else kwScan rest txt

/-- The normalized path segments of map_clothing_type: split on `>`, strip and
lowercase each segment, then drop the leading SKIP_SEGMENTS. -/
def partsOf (t : String) : List String :=
  ((splitOnChar '>' t).map fun p => pyLowerStr (pyStrip p)).dropWhile
    fun p => SKIP_SEGMENTS.contains p

/-- The Gina Tricot sub-mapping block of map_clothing_type. `some r` is a
`return r` of the Python block (`r` itself may be `none` for `return None`),
`none` falls through to the next resolution step. -/
def brandBlockGinatricot (first : String) (rest : List String) (_pn : String) :
    Option (Option String) :=
  if first = "badklader" then
    match rest with
    | sub :: _ =>
      some (if hasSub "bikini" sub then some "Bikini" else some "Swimsuit")
    | [] => none
  else if first = "skor" then
    match rest with
    | sub :: _ =>
      if hasSub "boots" sub then some (some "Boots")
      else if hasSub "hogklackade" sub || hasSub "klack" sub then some (some "High heels")
      else if hasSub "sandaler" sub then some (some "Sandals")
      else if hasSub "sneakers" sub then some (some "Sneakers")
      else if hasSub "tofflor" sub || hasSub "ballerina" sub then some (some "Other shoes")
      else some (some "Other shoes")
    | [] => some (some "Other shoes")
  else if first = "festklader" then
    match rest with
    | sub :: _ => some (if hasSub "byxor" sub then some "Trousers" else some "Skirt / Dress")
    | [] => none
  else if first = "mossorvantar" then
    match rest with
    | sub :: _ =>
      some (if hasSub "caps" sub || hasSub "keps" sub then some "Cap" else some "Hat")
    | [] => none
  else if first = "coatsjackets" then
    match rest with
    | sub :: _ =>
      if hasSub "vastar" sub then some (some "Unlined Jacket / Vest")
      else if hasSub "kavajer" sub then some (some "Suit")
      else some (some "Jacket")
    | [] => none
  else if first = "knitted" then
    match rest with
    | sub :: _ =>
      if hasSub "accessories" sub then some (some "Scarf / Shawl")
      else if hasSub "vastar" sub then some (some "Unlined Jacket / Vest")
      else some (some "Knitted Jumper")
    | [] => none
  else if first = "jeans" then
    match rest with
    | sub :: _ =>
      some (if hasSub "shorts" sub then some "Trousers / Shorts" else some "Trousers")
    | [] => none
  else if first = "basplagg" then
    match rest with
    | sub :: _ =>
      if hasSub "shorts" sub || hasSub "biker" sub || hasSub "cykel" sub then
        some (some "Trousers / Shorts")
      else some (some "Top / T-shirt")
    | [] => none
  else if first = "trojor" then
    match rest with
    | sub :: _ =>
      if hasSub "hoodies" sub || hasSub "hoodie" sub then some (some "Sweatshirt / Hoodie")
      else if hasSub "collegetrojor" sub then some (some "Sweatshirt / Hoodie")
      else if hasSub "vastar" sub then some (some "Unlined Jacket / Vest")
      else some (some "Knitted Jumper")
    | [] => none
  else if first = "loungewear" then some (some "Other")
  else if first = "traningsklader" then
    match rest with
    | sub :: _ =>
      if hasSub "pilates" sub || hasSub "yoga" sub then some (some "Top / T-shirt")
      else some (some "Sweatshirt / Hoodie")
    | [] => none
  else none

/-- The Lindex sub-mapping block of map_clothing_type (`pn` is the lowercased
product name + description). -/
def brandBlockLindex (first : String) (_rest : List String) (pn : String) :
    Option (Option String) :=
  if first = "badklader" || first = "badklader uv" then
    some (if pn ≠ "" && hasSub "bikini" pn then some "Bikini" else some "Swimsuit")
  else if first = "kavajer tunna jackor" then
    some (if pn ≠ "" && (hasSub "kavaj" pn || hasSub "blazer" pn) then some "Suit"
          else some "Jacket")
  else if first = "performancewear" then
    if pn ≠ "" && (hasSub "byxor" pn || hasSub "byxa" pn) then some (some "Trousers")
    else if pn ≠ "" && hasSub "overall" pn then some (some "Overall")
    else if pn ≠ "" && (hasSub "vantar" pn || hasSub "tumvantar" pn) then some (some "Gloves")
    else if pn ≠ "" && (hasSub "mössa" pn || hasSub "mossa" pn) then some (some "Hat")
    else some (some "Jacket")
  else if first = "traningsklader" then
    some (if pn ≠ "" && (hasSub "baddräkt" pn || hasSub "baddrakt" pn) then some "Swimsuit"
          else some "Underwear")
  else if first = "trojor koftor" || first = "trojor cardigans" then
    some (if pn ≠ "" && (hasSub "sweatshirt" pn || hasSub "hoodie" pn || hasSub "college" pn)
          then some "Sweatshirt / Hoodie" else some "Knitted Jumper")
  else if first = "linnen" then some (some "Top / T-shirt")
  else if first = "klimakterieklader" then some (some "Top / T-shirt")
  else if first = "mammaklader" then
    if pn ≠ "" && (hasSub "shorts" pn || hasSub "cykelbyxa" pn) then
      some (some "Trousers / Shorts")
    else if pn ≠ "" && (hasSub "jeans" pn || hasSub "byxor" pn || hasSub "byxa" pn ||
        hasSub "leggings" pn) then some (some "Trousers")
    else if pn ≠ "" && (hasSub "klänning" pn || hasSub "klanning" pn) then
      some (some "Skirt / Dress")
    else if pn ≠ "" && hasSub "kjol" pn then some (some "Skirt / Dress")
    else if pn ≠ "" && (hasSub "topp" pn || hasSub "linne" pn || hasSub "amningstopp" pn ||
        hasSub "t-shirt" pn || hasSub "tröja" pn || hasSub "skjorta" pn) then
      some (some "Top / T-shirt")
    else some (some "Other")
  else if first = "nyfodd" then
    if pn ≠ "" && (hasSub "body" pn || hasSub "omlottbody" pn) then some (some "Underwear")
    else if pn ≠ "" && (hasSub "klänning" pn || hasSub "klanning" pn) then
      some (some "Skirt / Dress")
    else if pn ≠ "" && (hasSub "byxor" pn || hasSub "byxa" pn || hasSub "leggings" pn ||
        hasSub "mjukisbyxor" pn) then some (some "Trousers")
    else some (some "Other")
  else none

/-- The Eton sub-mapping block of map_clothing_type. -/
def brandBlockEton (first : String) (_rest : List String) (pn : String) :
    Option (Option String) :=
  if first = "accessoarer" then
    if pn ≠ "" && (hasSub "badshorts" pn || hasSub "swim shorts" pn || hasSub "badbyxor" pn)
    then some (some "Trousers / Shorts")
    else if pn ≠ "" && (hasSub "scarf" pn || hasSub "halsduk" pn || hasSub "bandana" pn) then
      some (some "Scarf / Shawl")
    else if pn ≠ "" && (hasSub "mössa" pn || hasSub "mossa" pn || hasSub "beanie" pn) then
      some (some "Hat")
    else if pn ≠ "" && (hasSub "keps" pn || hasSub "baseballkeps" pn || hasSub "cap" pn ||
        hasSub "bucket hat" pn) then some (some "Cap")
    else if pn ≠ "" && (hasSub "bälte" pn || hasSub "belt" pn) then some (some "Belt")
    else some none
  else none

/-- The KappAhl sub-mapping block of map_clothing_type. -/
def brandBlockKappahl (first : String) (rest : List String) (_pn : String) :
    Option (Option String) :=
  if first = "badkläder" || first = "badklader" then
    match rest with
    | _ :: _ =>
      let sub := joinWith " > " rest
      some (if hasSub "bikini" sub then some "Bikini" else some "Swimsuit")
    | [] => none
  else if first = "ytterkläder" || first = "ytterklader" then
    match rest with
    | _ :: _ =>
      let sub := joinWith " > " rest
      if hasSub "regnbyxor" sub || hasSub "skalbyxor" sub || hasSub "skidbyxor" sub ||
          hasSub "överdragsbyxor" sub || hasSub "overdragsbyxor" sub then
        some (some "Trousers")
      else if hasSub "overaller" sub || hasSub "vinteroveraller" sub then some (some "Overall")
      else if hasSub "regnaccessoarer" sub then some none
      else if hasSub "västar" sub || hasSub "vastar" sub then
        some (some "Unlined Jacket / Vest")
      else some (some "Jacket")
    | [] => none
  else if first = "jackor & rockar" || first = "jackor & kappor" then
    match rest with
    | sub :: _ =>
      some (if hasSub "västar" sub || hasSub "vastar" sub then some "Unlined Jacket / Vest"
            else some "Jacket")
    | [] => none
  else if first = "loungewear" then
    match rest with
    | sub :: _ =>
      if hasSub "underdelar" sub then some (some "Trousers")
      else if hasSub "underställ" sub || hasSub "understall" sub then some (some "Midlayer")
      else some (some "Sweatshirt / Hoodie")
    | [] => some (some "Trousers / Shorts")
  else if first = "skor & tofflor" then
    match rest with
    | sub :: _ =>
      some (if hasSub "tofflor" sub || hasSub "slippers" sub then some "Other shoes"
            else some "Sneakers")
    | [] => none
  else if first = "tröjor & koftor" || first = "tröjor & cardigans" then
    match rest with
    | sub :: _ =>
      if hasSub "hoodies" sub || hasSub "hoodie" sub || hasSub "sweatshirt" sub then
        some (some "Sweatshirt / Hoodie")
      else if hasSub "stickade västar" sub || hasSub "västar" sub || hasSub "vastar" sub then
        some (some "Unlined Jacket / Vest")
      else some (some "Knitted Jumper")
    | [] => none
  else if first = "träningskläder" || first = "traningsklader" then
    match rest with
    | sub :: _ =>
      if hasSub "tights" sub || hasSub "cykelbyxor" sub || hasSub "cykelbyxa" sub ||
          hasSub "leggings" sub || hasSub "byxor" sub then some (some "Trousers")
      else if hasSub "shorts" sub || hasSub "cykelshorts" sub then
        some (some "Trousers / Shorts")
      else if hasSub "linne" sub || hasSub "topp" sub || hasSub "sport-bh" sub ||
          hasSub "bh" sub then some (some "Top / T-shirt")
      else some (some "Sweatshirt / Hoodie")
    | [] => none
  else if first = "mammakläder" || first = "mammaklader" then
    match rest with
    | sub :: _ =>
      if hasSub "toppar" sub || hasSub "trojor" sub || hasSub "blusar" sub ||
          hasSub "linne" sub || hasSub "amning" sub then some (some "Top / T-shirt")
      else if hasSub "klänningar" sub || hasSub "klanningar" sub then
        some (some "Skirt / Dress")
      else some (some "Trousers")
    | [] => none
  else if first = "basplagg" then
    match rest with
    | sub :: _ =>
      if hasSub "shorts" sub || hasSub "biker" sub || hasSub "cykel" sub then
        some (some "Trousers / Shorts")
      else if hasSub "leggings" sub || hasSub "tights" sub || hasSub "byxor" sub then
        some (some "Trousers")
      else if hasSub "sweatshirt" sub then some (some "Sweatshirt / Hoodie")
      else some (some "Top / T-shirt")
    | [] => none
  else if first = "accessoarer" then
    match rest with
    | _ :: _ =>
      match rest.reverse.findSome? (fun part => dget ACCESSORY_SUB_MAP part) with
      | some v => some (some v)
      | none => some none
    | [] => none
  else none

/-- The brand sub-mapping dispatch of map_clothing_type. -/
def brandBlocks (brand : Option String) (first : String) (rest : List String) (pn : String) :
    Option (Option String) :=
  match brand with
  | some b =>
    if b = "ginatricot" then brandBlockGinatricot first rest pn
    else if b = "lindex" then brandBlockLindex first rest pn
    else if b = "eton" then brandBlockEton first rest pn
    else if b = "kappahl" then brandBlockKappahl first rest pn
    else none
  | none => none

/-- mapping.py map_clothing_type, with the module state's four clothing maps
passed explicitly: `ctm` is CLOTHING_TYPE_MAP, `gkw` the keyword fallback list
KEYWORD_CLOTHING_MAP, `bm` the brand's exact override map and `bkw` the
brand's keyword override list (both already looked up for `brand`). -/
def map_clothing_type_aux (ctm : List (String × Option String))
    (gkw : List (String × String)) (bm : List (String × String))
    (bkw : List (String × String)) (ct : Option String) (brand : Option String)
    (product_name description : Option String) : Option String :=
  let pn0 := pyLowerStr (joinTruthy [product_name, description])
  match ct with
  | none => if pn0 = "" then none else kwScan gkw pn0
  | some t =>
    if t = "" then (if pn0 = "" then none else kwScan gkw pn0)
    else
      match partsOf t with
      | [] => none
      | first :: rest =>
        let pn := pyLowerStr (joinTruthy [product_name, description])
        let exact : Option String :=
          match brand with
          | some b =>
            if b = "" then none
            else
              match dget bm (joinWith " > " (first :: rest)) with
              | some v => some v
              | none => dget bm first
          | none => none
        match exact with
        | some v => some v
        | none =>
          match brandBlocks brand first rest pn with
          | some r => r
          | none =>
            match dget ctm first with
            | some (some v) => some v
            | _ =>
              let full := pyLowerStr t
              let bkwRes : Option String :=
                match brand with
                | some b =>
                  if b = "" then none
                  else if bkw = [] then none
                  else kwScan bkw full
                | none => none
              match bkwRes with
              | some v => some v
              | none =>
                if (dget ctm first).isSome then none
                else kwScan gkw full

/-- The brand's exact clothing-type override map
(`BRAND_CLOTHING_TYPE_OVERRIDES.get(brand, {})`). -/
def bmExactOf (st : MapState) (brand : Option String) : List (String × String) :=
  match brand with
  | some b => dgetD st.brandExact b []
  | none => []

/-- The brand's keyword clothing-type override list
(`BRAND_KEYWORD_CLOTHING_OVERRIDES.get(brand, [])`). -/
def bmKwOf (st : MapState) (brand : Option String) : List (String × String) :=
  match brand with
  | some b => dgetD st.brandKw b []
  | none => []

/-- mapping.py map_clothing_type over an explicit module state. -/
def map_clothing_type (st : MapState) (ct : Option String) (brand : Option String)
    (product_name description : Option String) : Option String :=
  map_clothing_type_aux st.ctm st.gkw (bmExactOf st brand) (bmKwOf st brand)
    ct brand product_name description

/-- The per-name lookup of map_material's inner `_resolve`: brand override
first, a falsy override value falls back to the global table. -/
def resolveName (bmap : List (String × String)) (mm : List (String × Option String))
    (nm : String) : Option String :=
  match dget bmap nm with
  | some s => if s = "" then optFlat (dget mm nm) else some s
  | none => optFlat (dget mm nm)

/-- The loop of map_material's `_resolve` over the sorted `(pct, name)` pairs:
return the first name whose lookup is truthy. -/
def material_resolve_go (bmap : List (String × String)) (mm : List (String × Option String)) :
    List (String × String) → Option String
  | [] => none
  | (_, name) :: rest =>
    let nm := pyLowerStr (pyStrip name)
    match resolveName bmap mm nm with
    | some s => if s = "" then material_resolve_go bmap mm rest else some s
    | none => material_resolve_go bmap mm rest

/-- map_material's `_resolve`: sort the `(pct, name)` pairs by `int(pct)`,
descending and stable, then return the first name that resolves. -/
def material_resolve (bmap : List (String × String)) (mm : List (String × Option String))
    (pairs : List (String × String)) : Option String :=
  material_resolve_go bmap mm (pySortDesc pairKey pairs)

/-- `BRAND_MATERIAL_OVERRIDES.get(brand, {}) if brand else {}`. -/
def brandMatFor (bmat : List (String × List (String × String))) (brand : Option String) :
    List (String × String) :=
  match brand with
  | some b => if b = "" then [] else dgetD bmat b []
  | none => []

/-- The final branch of map_material: look the trimmed bare text up, in the
brand override map when it is nonempty and holds the key, else in the global
map, falling back to the "Other/Unsure" sentinel on a falsy value or no
match. -/
def map_material_bare (mm : List (String × Option String)) (bmap : List (String × String))
    (t : String) : String :=
  let bare := pyLowerStr (pyStrip t)
  if bmap ≠ [] ∧ (dget bmap bare).isSome then
    match dget bmap bare with
    | some s => if s = "" then "Other/Unsure" else s
    | none => "Other/Unsure"
  else
    match dget mm bare with
    | some v =>
      match v with
      | some s => if s = "" then "Other/Unsure" else s
      | none => "Other/Unsure"
    | none => "Other/Unsure"

/-- The body of map_material on a truthy input: percentage-first parse, then
name-first parse, then the bare lookup. -/
def map_material_body (mm : List (String × Option String)) (bmap : List (String × String))
    (t : String) : String :=
  let ms := findall1 t
  let r1 := if ms = [] then none else material_resolve bmap mm ms
  if strTruthy r1 then r1.getD "Other/Unsure"
  else
    let rev := findall2 t
    let r2 := if rev = [] then none else material_resolve bmap mm rev
    if strTruthy r2 then r2.getD "Other/Unsure"
    else map_material_bare mm bmap t

/-- mapping.py map_material, with the module-level MATERIAL_MAP and
BRAND_MATERIAL_OVERRIDES passed explicitly as `mm` and `bmat`. -/
def map_material (mm : List (String × Option String))
    (bmat : List (String × List (String × String)))
    (text : Option String) (brand : Option String) : String :=
  match text with
  | none => "Other/Unsure"
  | some t =>
    if t = "" then "Other/Unsure"
    else map_material_body mm (brandMatFor bmat brand) t

/-- mapping.py map_category. -/
def map_category (c : Option String) : String :=
  match c with
  | none => "Women's Clothing"
  | some s =>
    if s = "" then "Women's Clothing"
    else (dget CATEGORY_MAP (pyLowerStr s)).getD "Women's Clothing"

/-- mapping.py `_resolve_clothing_type_id`: subcategory-specific override
first, then the default current-catalog table. -/
def _resolve_clothing_type_id (clothing_name : Option String) (subcategory_name : String) :
    Option Nat :=
  match clothing_name with
  | none => none
  | some nm =>
    if nm = "" then none
    else
      match dget (dgetD CLOTHING_TYPE_OVERRIDES subcategory_name []) nm with
      | some i => some i
      | none => dget QFIX_CLOTHING_TYPE_IDS nm

/-- Reverse lookup in a `{material_id: material_name}` row: the first id whose
name matches. -/
def rlookup : List (Nat × String) → String → Option Nat
  | [], _ => none
  | (i, n) :: rest, target => if n = target then some i else rlookup rest target

/-- mapping.py `_resolve_material_id`: reverse-look the material name up among
the clothing type's valid materials, falling back to that type's
"Other/Unsure" id when present. -/
def _resolve_material_id (clothing_type_id : Option Nat) (material_name : String) :
    Option Nat :=
  match clothing_type_id with
  | none => none
  | some c =>
    if c = 0 then none
    else if material_name = "" then none
    else
      let valid := dgetD VALID_MATERIAL_IDS c []
      match rlookup valid material_name with
      | some i => some i
      | none => rlookup valid "Other/Unsure"

/-- A product record as the mapping functions read it. -/
structure Product where
  clothing_type : Option String
  product_name : Option String
  description : Option String
  material_composition : Option String
  category : Option String

/-- The classification result of map_product / map_product_legacy. -/
structure QfixResult where
  qfix_clothing_type : Option String
  qfix_clothing_type_id : Option Nat
  qfix_material : String
  qfix_material_id : Option Nat
  qfix_subcategory : String
  qfix_subcategory_id : Option Nat
  qfix_url : Option String

/-- mapping.py map_product over an explicit module state: classification
against the complete current catalog. -/
def map_product (st : MapState) (p : Product) (brand : Option String) : QfixResult :=
  let clothing_name := map_clothing_type st p.clothing_type brand p.product_name p.description
  let material_name := map_material st.mm st.brandMat p.material_composition brand
  let subcategory_name := map_category p.category
  let clothing_type_id := _resolve_clothing_type_id clothing_name subcategory_name
  let material_id := _resolve_material_id clothing_type_id material_name
  let qfix_url :=
    if natTruthy clothing_type_id && natTruthy material_id then
      some ("https://kappahl.dev.qfixr.me/sv/?category_id=" ++
        toString (clothing_type_id.getD 0) ++ "&material_id=" ++ toString (material_id.getD 0))
    else none
  ⟨clothing_name, clothing_type_id, material_name, material_id, subcategory_name,
    dget QFIX_SUBCATEGORY_IDS subcategory_name, qfix_url⟩

/-- The inline legacy material-id loop of map_product_legacy. -/
def legacy_material_id (clothing_type_id : Option Nat) (material_name : String) :
    Option Nat :=
  if natTruthy clothing_type_id && material_name ≠ "" then
    let valid := dgetD VALID_MATERIAL_IDS_LEGACY (clothing_type_id.getD 0) []
    match rlookup valid material_name with
    | some i => some i
    | none => rlookup valid "Other/Unsure"
  else none

/-- The legacy clothing-type-id lookup of map_product_legacy
(`QFIX_CLOTHING_TYPE_IDS_LEGACY.get(clothing_name) if clothing_name else
None`). -/
def legacy_clothing_type_id (cn : Option String) : Option Nat :=
  match cn with
  | some nm => if nm = "" then none else dget QFIX_CLOTHING_TYPE_IDS_LEGACY nm
  | none => none

/-- mapping.py map_product_legacy over an explicit module state:
classification against the original hand-curated catalog. -/
def map_product_legacy (st : MapState) (p : Product) (brand : Option String) : QfixResult :=
  let clothing_name := map_clothing_type st p.clothing_type brand p.product_name p.description
  let material_name := map_material st.mm st.brandMat p.material_composition brand
  let subcategory_name := map_category p.category
  let clothing_type_id := legacy_clothing_type_id clothing_name
  let material_id := legacy_material_id clothing_type_id material_name
  let qfix_url :=
    if natTruthy clothing_type_id && natTruthy material_id then
      some ("https://kappahl.dev.qfixr.me/sv/?category_id=" ++
        toString (clothing_type_id.getD 0) ++ "&material_id=" ++ toString (material_id.getD 0))
    else none
  ⟨clothing_name, clothing_type_id, material_name, material_id, subcategory_name,
    dget QFIX_SUBCATEGORY_IDS_LEGACY subcategory_name, qfix_url⟩

example : map_clothing_type DEFAULT_STATE (some "badklader > bikini-details")
    (some "ginatricot") none none = some "Bikini" := by decide

example : map_clothing_type DEFAULT_STATE (some "badklader > other")
    (some "ginatricot") none none = some "Swimsuit" := by decide

example : map_material MATERIAL_MAP [] (some "75% Bomull, 21% Polyester, 4% Elastan") none =
    "Standard textile" := by decide

example : map_material MATERIAL_MAP [] (some "Metall") none = "Other/Unsure" := by decide

example : map_category (some "herr") = "Men's Clothing" := by decide

/-- api.py MAX_INJECTED_PER_RULE. -/
def MAX_INJECTED_PER_RULE : Nat := 2

/-- Whether any keyword of the rule is a substring of the product text
(`any(kw in product_text for kw in keywords)`). -/
def kwsMatch (pt : String) (kws : List String) : Bool := kws.any fun kw => hasSub kw pt

/-- An entry of the `all_actions` lookup built by _inject_keyword_actions. -/
structure SvcEntry where
  id : Nat
  name : String
  price : Option Nat
  category_key : String
deriving DecidableEq

/-- The `service_slug_to_key` translation: first of repair / adjustment /
washing / customize (in that insertion order) that is a substring of the
service-category slug. -/
def catKeyOf (slug : String) : Option String :=
  if hasSub "repair" slug then some "repair"
  else if hasSub "adjustment" slug then some "adjustment"
  else if hasSub "washing" slug then some "care"
  else if hasSub "customize" slug then some "other"
  else none

/-- All `{id, name, price, category_key}` entries of the service catalog, in
iteration order; a service category whose slug maps to no key is skipped. -/
def flatSvcEntries (svcs : List SvcCat) : List SvcEntry :=
  svcs.flatMap fun sc =>
    match catKeyOf sc.slug with
    | some k => sc.services.map fun s => ⟨s.id, s.name, s.price, k⟩
    | none => []

/-- `all_actions[name]`: the dict groups the flat entries by name keeping
insertion order, so the group for one name is the name-filtered flat list. -/
def allFor (svcs : List SvcCat) (name : String) : List SvcEntry :=
  (flatSvcEntries svcs).filter fun e => e.name == name

/-- The variant tie-break key `a["price"] or 9999` (`0` and `None` are both
falsy in Python). -/
def priceKey (a : SvcEntry) : Nat :=
  match a.price with
  | some p => if p = 0 then 9999 else p
  | none => 9999

/-- One keyword rule's injected actions: resolve each action definition to its
cheapest concrete entry (preferring the current category's variants), collect
the sub-keyword matches first, append the default unless already present or
over the cap, and truncate to MAX_INJECTED_PER_RULE. -/
def ruleInjected (pt : String) (svcs : List SvcCat) (r : KwActionRule) : List SvcAction :=
  let step := r.actions.foldl
    (fun (acc : List SvcAction × Option SvcAction) adef =>
      match allFor svcs adef.name with
      | [] => acc
      | e :: es =>
        let variants :=
          match (e :: es).filter (fun v => v.category_key == r.category) with
          | [] => e :: es
          | v :: vs => v :: vs
        match pyMinBy priceKey variants with
        | none => acc
        | some best =>
          let entry : SvcAction := ⟨best.id, best.name, best.price⟩
          if kwsMatch pt adef.sub_keywords then (acc.1 ++ [entry], acc.2)
          else if adef.isDefault then (acc.1, some entry)
          else acc)
    ([], none)
  let selected :=
    match step.2 with
    | some d =>
      if step.1.length < MAX_INJECTED_PER_RULE ∧ step.1.all (fun a => a.name ≠ d.name) then
        step.1 ++ [d]
      else step.1
    | none => step.1
  selected.take MAX_INJECTED_PER_RULE

/-- The injected actions collected for one category: contributions of every
matching KEYWORD_ACTION_RULES entry with that category, in rule order. -/
def injectedFor (pt : String) (svcs : List SvcCat) (cat : String) : List SvcAction :=
  (KEYWORD_ACTION_RULES.filter fun r => kwsMatch pt r.keywords && r.category == cat).flatMap
    (ruleInjected pt svcs)

/-- Order-preserving deduplication (first occurrence wins) with a seen
accumulator. -/
def dedupAux (seen : List String) : List String → List String
  | [] => []
  | x :: xs => if seen.contains x then dedupAux seen xs else x :: dedupAux (x :: seen) xs

/-- Order-preserving deduplication (first occurrence wins), the key order of a
Python dict filled by first-encounter insertion. -/
def dedupF (l : List String) : List String := dedupAux [] l

/-- The keys of the `injected` dict: the categories of the matching action
rules in first-encounter order (a key is created even when the rule
contributes no action). -/
def injectedCats (pt : String) : List String :=
  dedupF ((KEYWORD_ACTION_RULES.filter fun r => kwsMatch pt r.keywords).map (·.category))

/-- The union of `exclude_actions` of every matching KEYWORD_EXCLUSION_RULES
entry with the given category (membership in the `excluded[cat]` set). -/
def excludedNames (pt : String) (cat : String) : List String :=
  (KEYWORD_EXCLUSION_RULES.filter fun r => kwsMatch pt r.keywords && r.category == cat).flatMap
    (·.exclude_actions)

/-- Whether the `excluded` dict is nonempty: some exclusion rule matched. -/
def anyExcl (pt : String) : Bool := KEYWORD_EXCLUSION_RULES.any fun r => kwsMatch pt r.keywords

/-- Whether the `injected` dict is nonempty: some action rule matched. -/
def anyInj (pt : String) : Bool := KEYWORD_ACTION_RULES.any fun r => kwsMatch pt r.keywords

/-- The AI-pool score table `[10, 9, 8, 7, 6, 5, 4, 3, 2, 1]`, clamped to 1
past index 9. -/
def aiScore (i : Nat) : Nat := if i < 10 then 10 - i else 1

/-- The injected-action score table `[7, 5, 3, 1, 1]`, clamped to 1 past its
end. -/
def kwScore (k : Nat) : Nat := [7, 5, 3, 1, 1].getD k 1

/-- The scored AI pool: position `i` gets `aiScore i`. -/
def aiScored (i : Nat) : List SvcAction → List (Nat × SvcAction)
  | [] => []
  | a :: rest => (aiScore i, a) :: aiScored (i + 1) rest

/-- The injected-candidate loop: skip a candidate whose id or name was already
seen, otherwise append it with the next keyword score and record it as seen. -/
def kwAppend (seenIds : List Nat) (seenNames : List String) (k : Nat) :
    List SvcAction → List (Nat × SvcAction)
  | [] => []
  | a :: rest =>
    if seenIds.contains a.id || seenNames.contains a.name then
      kwAppend seenIds seenNames k rest
    else (kwScore k, a) :: kwAppend (a.id :: seenIds) (a.name :: seenNames) (k + 1) rest

/-- The score-based merge of one category: score the existing pool by
position, append unseen injected candidates with keyword-band scores, sort by
score descending (stable) and keep the top 5. -/
def mergeCat (existing newActs : List SvcAction) : List SvcAction :=
  let scored := aiScored 0 existing ++
    kwAppend (existing.map (·.id)) (existing.map (·.name)) 0 newActs
  ((pySortDesc (·.1) scored).take 5).map (·.2)

/-- The per-category maps the merge engine works on: `category_key → actions`
as an insertion-ordered dict. -/
def trim5 (d : List (String × List SvcAction)) : List (String × List SvcAction) :=
  d.map fun e => (e.1, e.2.take 5)

/-- The exclusion pass: drop every action whose name is excluded for its
category. (The source iterates the matched categories of the `excluded` dict
and filters only those keys of `result`; for every other key the exclusion set
is empty and the filter below keeps the list unchanged, so the two agree.) -/
def applyExcl (pt : String) (d : List (String × List SvcAction)) :
    List (String × List SvcAction) :=
  d.map fun e => (e.1, e.2.filter fun a => !(excludedNames pt e.1).contains a.name)

/-- api.py `_inject_keyword_actions`: the action-recommendation merge engine.
`top` is the AI-ranked pool (`category_key → up to 10 actions`), `pt` the
lowercased product text, `svcs` the full service catalog for the product's
(clothing type, material) pair. -/
def _inject_keyword_actions (top : List (String × List SvcAction)) (pt : String)
    (svcs : List SvcCat) : List (String × List SvcAction) :=
  if pt = "" then top
  else if !anyInj pt && !anyExcl pt then trim5 top
  else
    let result := if anyExcl pt then applyExcl pt top else top
    if anyInj pt then
      (injectedCats pt).foldl
        (fun res cat => dset res cat (mergeCat (dgetD res cat []) (injectedFor pt svcs cat)))
        result
    else trim5 result

/-- The fixed valid-materials set of api.py (the same literal appears in
add_mapping and in the apply-suggestions endpoint). -/
def VALID_MATERIALS : List String :=
  ["Standard textile", "Linen/Wool", "Cashmere", "Silk", "Leather/Suede", "Down",
   "Fur", "Other/Unsure"]

/-- The request body of the add-mapping endpoint (`type` / `from` / `to`,
an absent key modelled as `none`). -/
structure AddReq where
  reqType : Option String
  fromVal : Option String
  toVal : Option String

/-- The response of the add-mapping endpoint: HTTP status, error message, and
the valid-target list a validation error names. -/
structure AddResp where
  status : Nat
  error : Option String
  valid_set : List String

/-- api.py add_mapping (`POST /unmapped/add`): validates the request, and on
success performs the single dict assignment `CLOTHING_TYPE_MAP[from] = to` or
`MATERIAL_MAP[from] = to`. Returns the response and the two maps after the
call. -/
def add_mapping (ctm : List (String × Option String)) (mm : List (String × Option String))
    (data : Option AddReq) :
    AddResp × List (String × Option String) × List (String × Option String) :=
  match data with
  | none => (⟨400, some "JSON body required", []⟩, ctm, mm)
  | some d =>
    let mapping_type := d.reqType.getD ""
    let from_val := pyLowerStr (pyStrip (d.fromVal.getD ""))
    let to_val := pyStrip (d.toVal.getD "")
    if mapping_type = "" ∨ from_val = "" ∨ to_val = "" then
      (⟨400, some "Required fields: type, from, to", []⟩, ctm, mm)
    else if mapping_type = "clothing_type" then
      if (dget QFIX_CLOTHING_TYPE_IDS to_val).isNone then
        (⟨400, some ("Invalid QFix clothing type: " ++ to_val),
          pySortStrAsc (QFIX_CLOTHING_TYPE_IDS.map (·.1))⟩, ctm, mm)
      else (⟨200, none, []⟩, dset ctm from_val (some to_val), mm)
    else if mapping_type = "material" then
      if !VALID_MATERIALS.contains to_val then
        (⟨400, some ("Invalid QFix material: " ++ to_val), pySortStrAsc VALID_MATERIALS⟩,
          ctm, mm)
      else (⟨200, none, []⟩, ctm, dset mm from_val (some to_val))
    else (⟨400, some "type must be clothing_type or material", []⟩, ctm, mm)

example :
    _inject_keyword_actions
      [("adjustment",
        [⟨1, "A", some 10⟩, ⟨2, "B", some 10⟩, ⟨3, "Tapering legs", some 10⟩,
         ⟨4, "D", some 10⟩, ⟨5, "E", some 10⟩, ⟨6, "Take in waist", some 10⟩,
         ⟨7, "G", some 10⟩])]
      "bikini top" [] =
    [("adjustment",
      [⟨1, "A", some 10⟩, ⟨2, "B", some 10⟩, ⟨4, "D", some 10⟩, ⟨5, "E", some 10⟩,
       ⟨6, "Take in waist", some 10⟩])] := by decide

example :
    _inject_keyword_actions
      [("repair", [⟨21, "Repair seam", some 100⟩])]
      "byxa med dragkedja"
      [⟨"repair-services", [⟨501, "Replace zipper", some 245⟩]⟩] =
    [("repair", [⟨21, "Repair seam", some 100⟩, ⟨501, "Replace zipper", some 245⟩])] := by
  decide

/-- Boolean check that a MATERIAL_MAP value is canonical. -/
def matValOk (kv : String × Option String) : Bool :=
  match kv.2 with
  | some s => VALID_MATERIALS.contains s
  | none => true

/-- A module state with one brand exact override installed, as the admin
apply-suggestions endpoint would leave it. -/
def ACME_STATE : MapState :=
  ⟨CLOTHING_TYPE_MAP, KEYWORD_CLOTHING_MAP, [("acme", [("klanningar", "Coat")])], [],
    MATERIAL_MAP, []⟩

theorem dget_mem {α β : Type} [DecidableEq α] {l : List (α × β)} {k : α} {v : β}
    (h : dget l k = some v) : (k, v) ∈ l := by
  induction l with
  | nil => simp [dget] at h
  | cons hd tl ih =>
    obtain ⟨k', v'⟩ := hd
    by_cases hk : k' = k
    · subst hk
      have h' : v' = v := by simpa [dget] using h
      subst h'
      exact List.mem_cons_self _ _
    · simp only [dget, if_neg hk] at h
      exact List.mem_cons_of_mem _ (ih h)

theorem dget_dset {α β : Type} [DecidableEq α] (l : List (α × β)) (k : α) (v : β) (k' : α) :
    dget (dset l k v) k' = if k = k' then some v else dget l k' := by
  induction l with
  | nil => simp [dget, dset]
  | cons hd tl ih =>
    obtain ⟨k0, v0⟩ := hd
    by_cases h0 : k0 = k
    · subst h0
      by_cases h1 : k0 = k'
      · subst h1; simp [dget, dset]
      · simp [dget, dset, h1]
    · by_cases h1 : k0 = k'
      · subst h1
        have : ¬ k = k0 := fun h => h0 h.symm
        simp [dget, dset, h0, this]
      · simp [dget, dset, h0, h1, ih]

theorem dget_mapEntries {α β γ : Type} [DecidableEq α] (f : α → β → γ)
    (l : List (α × β)) (k : α) :
    dget (l.map fun e => (e.1, f e.1 e.2)) k = (dget l k).map (f k) := by
  induction l with
  | nil => rfl
  | cons hd tl ih =>
    obtain ⟨k', v'⟩ := hd
    by_cases hk : k' = k
    · subst hk; simp [dget]
    · simp [dget, hk, ih]

theorem mem_insDesc {α : Type} (key : α → Nat) (x : α) (l : List α) (a : α) :
    a ∈ insDesc key x l ↔ a = x ∨ a ∈ l := by
  induction l with
  | nil => simp [insDesc]
  | cons y ys ih =>
    by_cases h : key y ≤ key x
    · simp [insDesc, h]
    · simp [insDesc, h, ih]
      tauto

theorem insDesc_perm {α : Type} (key : α → Nat) (x : α) (l : List α) :
    (insDesc key x l).Perm (x :: l) := by
  induction l with
  | nil => simp [insDesc]
  | cons y ys ih =>
    by_cases h : key y ≤ key x
    · simp [insDesc, h]
    · simp only [insDesc, h, if_neg]
      exact ((ih.cons y).trans (List.Perm.swap x y ys))

theorem pySortDesc_perm {α : Type} (key : α → Nat) (l : List α) :
    (pySortDesc key l).Perm l := by
  induction l with
  | nil => simp [pySortDesc]
  | cons x xs ih =>
    exact (insDesc_perm key x (pySortDesc key xs)).trans (ih.cons x)

theorem insDesc_sorted {α : Type} (key : α → Nat) (x : α) (l : List α)
    (h : List.Pairwise (fun a b => key b ≤ key a) l) :
    List.Pairwise (fun a b => key b ≤ key a) (insDesc key x l) := by
  induction l with
  | nil => simp [insDesc]
  | cons y ys ih =>
    by_cases hyx : key y ≤ key x
    · simp only [insDesc, if_pos hyx]
      constructor
      · intro z hz
        rcases List.mem_cons.mp hz with rfl | hz'
        · exact hyx
        · exact le_trans ((List.pairwise_cons.mp h).1 z hz') hyx
      · exact h
    · simp only [insDesc, if_neg hyx]
      have hxy : key x ≤ key y := le_of_lt (Nat.lt_of_not_le hyx)
      constructor
      · intro z hz
        rcases (mem_insDesc key x ys z).mp hz with rfl | hz'
        · exact hxy
        · exact (List.pairwise_cons.mp h).1 z hz'
      · exact ih (List.pairwise_cons.mp h).2

theorem pySortDesc_sorted {α : Type} (key : α → Nat) (l : List α) :
    List.Pairwise (fun a b => key b ≤ key a) (pySortDesc key l) := by
  induction l with
  | nil => simp [pySortDesc]
  | cons x xs ih => exact insDesc_sorted key x (pySortDesc key xs) ih

theorem filter_insDesc_eq {α : Type} (key : α → Nat) (x : α) (l : List α) (n : Nat)
    (hx : key x = n) :
    (insDesc key x l).filter (fun a => key a == n) = x :: l.filter (fun a => key a == n) := by
  induction l with
  | nil => simp [insDesc, List.filter_cons, hx]
  | cons y ys ih =>
    by_cases hyx : key y ≤ key x
    · simp only [insDesc, if_pos hyx]
      rw [List.filter_cons]
      simp [hx]
    · have hne : (key y == n) = false := by
        simp only [beq_eq_false_iff_ne, ne_eq]
        intro hyn
        exact hyx (by rw [hyn, hx])
      simp only [insDesc, if_neg hyx]
      rw [List.filter_cons, List.filter_cons, hne]
      simp only [Bool.false_eq_true, if_neg, ite_false]
      exact ih

theorem filter_insDesc_ne {α : Type} (key : α → Nat) (x : α) (l : List α) (n : Nat)
    (hx : key x ≠ n) :
    (insDesc key x l).filter (fun a => key a == n) = l.filter (fun a => key a == n) := by
  induction l with
  | nil => simp [insDesc, List.filter_cons, hx]
  | cons y ys ih =>
    by_cases hyx : key y ≤ key x
    · simp only [insDesc, if_pos hyx]
      rw [List.filter_cons]
      simp only [beq_iff_eq, hx, ite_false, if_neg]
    · simp only [insDesc, if_neg hyx]
      rw [List.filter_cons, List.filter_cons]
      by_cases hy : (key y == n) = true
      · simp [hy, ih]
      · simp only [Bool.not_eq_true] at hy
        simp [hy, ih]

theorem pySortDesc_filter_stable {α : Type} (key : α → Nat) (l : List α) (n : Nat) :
    (pySortDesc key l).filter (fun a => key a == n) = l.filter (fun a => key a == n) := by
  induction l with
  | nil => simp [pySortDesc]
  | cons x xs ih =>
    by_cases hx : key x = n
    · rw [pySortDesc, filter_insDesc_eq key x _ n hx, ih, List.filter_cons]
      simp [hx]
    · rw [pySortDesc, filter_insDesc_ne key x _ n hx, ih, List.filter_cons]
      simp [hx]

theorem rlookup_mem {l : List (Nat × String)} {target : String} {i : Nat}
    (h : rlookup l target = some i) : i ∈ l.map (·.1) := by
  induction l with
  | nil => simp [rlookup] at h
  | cons hd tl ih =>
    obtain ⟨j, nm⟩ := hd
    by_cases hn : nm = target
    · simp only [rlookup, if_pos hn, Option.some.injEq] at h
      subst h; simp
    · simp only [rlookup, if_neg hn] at h
      simpa using Or.inr (by simpa using ih h)

theorem aiScored_mem {i : Nat} {l : List SvcAction} {x : Nat × SvcAction}
    (h : x ∈ aiScored i l) : x.2 ∈ l := by
  induction l generalizing i with
  | nil => simp [aiScored] at h
  | cons a rest ih =>
    rcases List.mem_cons.mp h with rfl | h'
    · simp
    · exact List.mem_cons_of_mem _ (ih h')

theorem kwAppend_mem {si : List Nat} {sn : List String} {k : Nat} {l : List SvcAction}
    {x : Nat × SvcAction} (h : x ∈ kwAppend si sn k l) : x.2 ∈ l := by
  induction l generalizing si sn k with
  | nil => simp [kwAppend] at h
  | cons a rest ih =>
    by_cases hseen : (si.contains a.id || sn.contains a.name) = true
    · simp only [kwAppend, hseen, if_pos] at h
      exact List.mem_cons_of_mem _ (ih h)
    · simp only [kwAppend, hseen, Bool.false_eq_true, if_neg, if_false] at h
      rcases List.mem_cons.mp h with rfl | h'
      · simp
      · exact List.mem_cons_of_mem _ (ih h')

theorem mergeCat_mem {ex new : List SvcAction} {a : SvcAction}
    (h : a ∈ mergeCat ex new) : a ∈ ex ∨ a ∈ new := by
  unfold mergeCat at h
  rcases List.mem_map.mp h with ⟨p, hp, hpa⟩
  have hp2 : p ∈ pySortDesc (fun q : Nat × SvcAction => q.1) (aiScored 0 ex ++
      kwAppend (ex.map (·.id)) (ex.map (·.name)) 0 new) := List.mem_of_mem_take hp
  have hp3 := (pySortDesc_perm (fun q : Nat × SvcAction => q.1) _).mem_iff.mp hp2
  rcases List.mem_append.mp hp3 with hL | hR
  · exact Or.inl (hpa ▸ aiScored_mem hL)
  · exact Or.inr (hpa ▸ kwAppend_mem hR)

theorem inject_fold_mem (pt : String) (svcs : List SvcCat) (cats : List String)
    (res : List (String × List SvcAction)) (c : String) (a : SvcAction)
    (h : a ∈ dgetD
      (cats.foldl
        (fun res cat => dset res cat (mergeCat (dgetD res cat []) (injectedFor pt svcs cat)))
        res) c []) :
    a ∈ dgetD res c [] ∨ a ∈ injectedFor pt svcs c := by
  induction cats generalizing res with
  | nil => exact Or.inl h
  | cons cat cats ih =>
    rcases ih _ h with hmid | hinj
    · by_cases hc : cat = c
      · subst hc
        rw [dgetD, dget_dset, if_pos rfl] at hmid
        simp only [Option.getD_some] at hmid
        rcases mergeCat_mem hmid with hex | hnew
        · exact Or.inl hex
        · exact Or.inr hnew
      · rw [dgetD, dget_dset, if_neg hc] at hmid
        exact Or.inl hmid
    · exact Or.inr hinj

theorem dgetD_applyExcl (pt : String) (top : List (String × List SvcAction)) (c : String)
    {a : SvcAction} (h : a ∈ dgetD (applyExcl pt top) c []) :
    a ∈ dgetD top c [] ∧ a.name ∉ excludedNames pt c := by
  unfold applyExcl at h
  rw [dgetD, dget_mapEntries (fun c as => as.filter fun a => !(excludedNames pt c).contains a.name)
    top c] at h
  cases htop : dget top c with
  | none => rw [htop] at h; simp at h
  | some as =>
    rw [htop] at h
    simp only [Option.map_some', Option.getD_some] at h
    have := List.mem_filter.mp h
    refine ⟨by rw [dgetD, htop]; exact this.1, ?_⟩
    have hb := this.2
    simp only [Bool.not_eq_eq_eq_not, Bool.not_true] at hb
    simpa using hb

theorem dgetD_trim5 (top : List (String × List SvcAction)) (c : String)
    {a : SvcAction} (h : a ∈ dgetD (trim5 top) c []) : a ∈ dgetD top c [] := by
  unfold trim5 at h
  rw [dgetD, dget_mapEntries (fun _ as => as.take 5) top c] at h
  cases htop : dget top c with
  | none => rw [htop] at h; simp at h
  | some as =>
    rw [htop] at h
    simp only [Option.map_some', Option.getD_some] at h
    rw [dgetD, htop]
    exact List.mem_of_mem_take h

theorem excludedNames_empty (c : String) : excludedNames "" c = [] := by
  unfold excludedNames
  have hall : KEYWORD_EXCLUSION_RULES.all (fun r => !kwsMatch "" r.keywords) = true := by decide
  have hfil : KEYWORD_EXCLUSION_RULES.filter
      (fun r => kwsMatch "" r.keywords && r.category == c) = [] := by
    rw [List.filter_eq_nil_iff]
    intro r hr
    have := List.all_eq_true.mp hall r hr
    simp only [Bool.not_eq_eq_eq_not, Bool.not_true] at this
    simp [this]
  rw [hfil]
  rfl

theorem anyExcl_of_mem {pt c : String} {n : String} (h : n ∈ excludedNames pt c) :
    anyExcl pt = true := by
  unfold excludedNames at h
  rcases List.mem_flatMap.mp h with ⟨r, hr, _⟩
  have hr2 := List.mem_filter.mp hr
  have hkw : kwsMatch pt r.keywords = true := by
    have := hr2.2
    simp only [Bool.and_eq_true] at this
    exact this.1
  exact List.any_eq_true.mpr ⟨r, hr2.1, hkw⟩

theorem strTruthy_getD {o : Option String} (h : strTruthy o = true) :
    ∃ v, o = some v ∧ v ≠ "" := by
  cases o with
  | none => simp [strTruthy] at h
  | some s => exact ⟨s, rfl, by simpa [strTruthy] using h⟩

theorem MATERIAL_MAP_vals_ok : MATERIAL_MAP.all matValOk = true := by decide

theorem dget_material_canonical {k : String} {s : String}
    (h : dget MATERIAL_MAP k = some (some s)) : s ∈ VALID_MATERIALS := by
  have hm := dget_mem h
  have := List.all_eq_true.mp MATERIAL_MAP_vals_ok _ hm
  simpa [matValOk] using this

theorem optFlat_eq_some {o : Option (Option String)} {s : String}
    (h : optFlat o = some s) : o = some (some s) := by
  cases o with
  | none => simp [optFlat] at h
  | some v =>
    cases v with
    | none => simp [optFlat] at h
    | some w => simpa [optFlat] using h

theorem resolveName_nil (mm : List (String × Option String)) (nm : String) :
    resolveName [] mm nm = optFlat (dget mm nm) := rfl

theorem material_resolve_go_ne_empty {bmap : List (String × String)}
    {mm : List (String × Option String)} {pairs : List (String × String)} {v : String}
    (h : material_resolve_go bmap mm pairs = some v) : v ≠ "" := by
  induction pairs with
  | nil => simp [material_resolve_go] at h
  | cons p rest ih =>
    obtain ⟨pct, name⟩ := p
    simp only [material_resolve_go] at h
    split at h
    · rename_i s _
      by_cases hs : s = ""
      · rw [if_pos hs] at h; exact ih h
      · rw [if_neg hs] at h
        injection h with h2
        exact h2 ▸ hs
    · exact ih h

theorem material_resolve_ne_empty {bmap : List (String × String)}
    {mm : List (String × Option String)} {pairs : List (String × String)} {v : String}
    (h : material_resolve bmap mm pairs = some v) : v ≠ "" :=
  material_resolve_go_ne_empty h

theorem material_resolve_go_canonical {pairs : List (String × String)} {v : String}
    (h : material_resolve_go [] MATERIAL_MAP pairs = some v) : v ∈ VALID_MATERIALS := by
  induction pairs with
  | nil => simp [material_resolve_go] at h
  | cons p rest ih =>
    obtain ⟨pct, name⟩ := p
    simp only [material_resolve_go] at h
    split at h
    · rename_i s heq
      rw [resolveName_nil] at heq
      have hg := optFlat_eq_some heq
      by_cases hs : s = ""
      · rw [if_pos hs] at h; exact ih h
      · rw [if_neg hs] at h
        injection h with h2
        exact h2 ▸ dget_material_canonical hg
    · exact ih h

theorem map_material_bare_canonical (t : String) :
    map_material_bare MATERIAL_MAP [] t ∈ VALID_MATERIALS := by
  have hsent : ("Other/Unsure" : String) ∈ VALID_MATERIALS := by decide
  unfold map_material_bare
  have hcond : ¬ (([] : List (String × String)) ≠ [] ∧
      (dget ([] : List (String × String)) (pyLowerStr (pyStrip t))).isSome = true) := by
    simp
  rw [if_neg hcond]
  cases hg : dget MATERIAL_MAP (pyLowerStr (pyStrip t)) with
  | none => exact hsent
  | some vo =>
    cases vo with
    | none => exact hsent
    | some s =>
      by_cases hs : s = ""
      · simp only [if_pos hs]
        exact hsent
      · simp only [if_neg hs]
        exact dget_material_canonical hg

theorem map_material_body_canonical (t : String) :
    map_material_body MATERIAL_MAP [] t ∈ VALID_MATERIALS := by
  have hsent : ("Other/Unsure" : String) ∈ VALID_MATERIALS := by decide
  unfold map_material_body
  by_cases h1 : strTruthy (if findall1 t = [] then none
      else material_resolve [] MATERIAL_MAP (findall1 t)) = true
  · rw [if_pos h1]
    obtain ⟨v, hv, _⟩ := strTruthy_getD h1
    rw [hv, Option.getD_some]
    by_cases hms : findall1 t = []
    · rw [if_pos hms] at hv; cases hv
    · rw [if_neg hms] at hv
      exact material_resolve_go_canonical hv
  · rw [if_neg h1]
    by_cases h2 : strTruthy (if findall2 t = [] then none
        else material_resolve [] MATERIAL_MAP (findall2 t)) = true
    · rw [if_pos h2]
      obtain ⟨v, hv, _⟩ := strTruthy_getD h2
      rw [hv, Option.getD_some]
      by_cases hms : findall2 t = []
      · rw [if_pos hms] at hv; cases hv
      · rw [if_neg hms] at hv
        exact material_resolve_go_canonical hv
    · rw [if_neg h2]
      exact map_material_bare_canonical t

theorem map_material_bare_ne_empty (mm : List (String × Option String))
    (bmap : List (String × String)) (t : String) : map_material_bare mm bmap t ≠ "" := by
  unfold map_material_bare
  by_cases hcond : bmap ≠ [] ∧ (dget bmap (pyLowerStr (pyStrip t))).isSome = true
  · rw [if_pos hcond]
    cases hg : dget bmap (pyLowerStr (pyStrip t)) with
    | none => simp
    | some s =>
      by_cases hs : s = ""
      · simp [hs]
      · simp [hs]
  · rw [if_neg hcond]
    cases hg : dget mm (pyLowerStr (pyStrip t)) with
    | none => simp
    | some vo =>
      cases vo with
      | none => simp
      | some s =>
        by_cases hs : s = ""
        · simp [hs]
        · simp [hs]

theorem map_material_body_ne_empty (mm : List (String × Option String))
    (bmap : List (String × String)) (t : String) : map_material_body mm bmap t ≠ "" := by
  unfold map_material_body
  by_cases h1 : strTruthy (if findall1 t = [] then none
      else material_resolve bmap mm (findall1 t)) = true
  · rw [if_pos h1]
    obtain ⟨v, hv, hne⟩ := strTruthy_getD h1
    rw [hv, Option.getD_some]
    exact hne
  · rw [if_neg h1]
    by_cases h2 : strTruthy (if findall2 t = [] then none
        else material_resolve bmap mm (findall2 t)) = true
    · rw [if_pos h2]
      obtain ⟨v, hv, hne⟩ := strTruthy_getD h2
      rw [hv, Option.getD_some]
      exact hne
    · rw [if_neg h2]
      exact map_material_bare_ne_empty mm bmap t

theorem map_material_ne_empty (mm : List (String × Option String))
    (bmat : List (String × List (String × String))) (t b : Option String) :
    map_material mm bmat t b ≠ "" := by
  cases t with
  | none => simp [map_material]
  | some s =>
    by_cases hs : s = ""
    · simp [map_material, hs]
    · simp only [map_material, if_neg hs]
      exact map_material_body_ne_empty mm (brandMatFor bmat b) s

theorem resolve_clothing_type_id_nonzero {n : Option String} {sub : String} {i : Nat}
    (h : _resolve_clothing_type_id n sub = some i) : i ≠ 0 := by
  cases n with
  | none => simp [_resolve_clothing_type_id] at h
  | some nm =>
    simp only [_resolve_clothing_type_id] at h
    by_cases hnm : nm = ""
    · rw [if_pos hnm] at h; cases h
    · rw [if_neg hnm] at h
      split at h
      · rename_i j heq
        injection h with h2
        subst h2
        have hall : CLOTHING_TYPE_OVERRIDES.all (fun r => r.2.all fun kv => kv.2 != 0) = true := by
          decide
        rcases hrow : dget CLOTHING_TYPE_OVERRIDES sub with _ | row
        · rw [dgetD, hrow] at heq; simp [dget] at heq
        · rw [dgetD, hrow] at heq
          have hr := List.all_eq_true.mp hall _ (dget_mem hrow)
          have := List.all_eq_true.mp hr _ (dget_mem heq)
          simpa using this
      · have hall : QFIX_CLOTHING_TYPE_IDS.all (fun kv => kv.2 != 0) = true := by decide
        have := List.all_eq_true.mp hall _ (dget_mem h)
        simpa using this

theorem rlookup_nonzero_of_valid {cv : Nat} {target : String} {i : Nat}
    (h : rlookup (dgetD VALID_MATERIAL_IDS cv []) target = some i) : i ≠ 0 := by
  have hall : VALID_MATERIAL_IDS.all (fun r => r.2.all fun kv => kv.1 != 0) = true := by decide
  rcases hrow : dget VALID_MATERIAL_IDS cv with _ | row
  · rw [dgetD, hrow] at h; simp [rlookup] at h
  · rw [dgetD, hrow] at h
    have hr := List.all_eq_true.mp hall _ (dget_mem hrow)
    rcases List.mem_map.mp (rlookup_mem h) with ⟨kv, hkv, hfst⟩
    have := List.all_eq_true.mp hr _ hkv
    rw [hfst] at this
    simpa using this

theorem rlookup_nonzero_of_valid_legacy {cv : Nat} {target : String} {i : Nat}
    (h : rlookup (dgetD VALID_MATERIAL_IDS_LEGACY cv []) target = some i) : i ≠ 0 := by
  have hall : VALID_MATERIAL_IDS_LEGACY.all (fun r => r.2.all fun kv => kv.1 != 0) = true := by
    decide
  rcases hrow : dget VALID_MATERIAL_IDS_LEGACY cv with _ | row
  · rw [dgetD, hrow] at h; simp [rlookup] at h
  · rw [dgetD, hrow] at h
    have hr := List.all_eq_true.mp hall _ (dget_mem hrow)
    rcases List.mem_map.mp (rlookup_mem h) with ⟨kv, hkv, hfst⟩
    have := List.all_eq_true.mp hr _ hkv
    rw [hfst] at this
    simpa using this

theorem resolve_material_id_nonzero {c : Option Nat} {mat : String} {i : Nat}
    (h : _resolve_material_id c mat = some i) : i ≠ 0 := by
  cases c with
  | none => simp [_resolve_material_id] at h
  | some cv =>
    simp only [_resolve_material_id] at h
    by_cases hcv : cv = 0
    · rw [if_pos hcv] at h; cases h
    · rw [if_neg hcv] at h
      by_cases hmat : mat = ""
      · rw [if_pos hmat] at h; cases h
      · rw [if_neg hmat] at h
        split at h
        · rename_i j heq
          injection h with h2
          subst h2
          exact rlookup_nonzero_of_valid heq
        · exact rlookup_nonzero_of_valid h

theorem legacy_ct_id_nonzero {cn : Option String} {c : Nat}
    (h : legacy_clothing_type_id cn = some c) : c ≠ 0 := by
  cases cn with
  | none => simp [legacy_clothing_type_id] at h
  | some nm =>
    simp only [legacy_clothing_type_id] at h
    by_cases hnm : nm = ""
    · rw [if_pos hnm] at h; cases h
    · rw [if_neg hnm] at h
      have hall : QFIX_CLOTHING_TYPE_IDS_LEGACY.all (fun kv => kv.2 != 0) = true := by decide
      have := List.all_eq_true.mp hall _ (dget_mem h)
      simpa using this

theorem legacy_material_id_nonzero {c : Option Nat} {mat : String} {i : Nat}
    (h : legacy_material_id c mat = some i) : i ≠ 0 := by
  simp only [legacy_material_id] at h
  by_cases hcond : (natTruthy c && decide (mat ≠ "")) = true
  · rw [if_pos hcond] at h
    split at h
    · rename_i j heq
      injection h with h2
      subst h2
      exact rlookup_nonzero_of_valid_legacy heq
    · exact rlookup_nonzero_of_valid_legacy h
  · rw [if_neg hcond] at h; cases h

theorem subcat_id_some (c : Option String) :
    (dget QFIX_SUBCATEGORY_IDS (map_category c)).isSome = true := by
  cases c with
  | none => decide
  | some s =>
    by_cases hs : s = ""
    · simp only [map_category, if_pos hs]; decide
    · simp only [map_category, if_neg hs]
      rcases hg : dget CATEGORY_MAP (pyLowerStr s) with _ | v
      · simp only [Option.getD_none]; decide
      · simp only [Option.getD_some]
        have hall : CATEGORY_MAP.all (fun kv => (dget QFIX_SUBCATEGORY_IDS kv.2).isSome) = true := by
          decide
        exact List.all_eq_true.mp hall _ (dget_mem hg)

theorem subcat_id_some_legacy (c : Option String) :
    (dget QFIX_SUBCATEGORY_IDS_LEGACY (map_category c)).isSome = true := by
  cases c with
  | none => decide
  | some s =>
    by_cases hs : s = ""
    · simp only [map_category, if_pos hs]; decide
    · simp only [map_category, if_neg hs]
      rcases hg : dget CATEGORY_MAP (pyLowerStr s) with _ | v
      · simp only [Option.getD_none]; decide
      · simp only [Option.getD_some]
        have hall : CATEGORY_MAP.all
            (fun kv => (dget QFIX_SUBCATEGORY_IDS_LEGACY kv.2).isSome) = true := by decide
        exact List.all_eq_true.mp hall _ (dget_mem hg)

theorem url_iff_aux (u : String) (cid mid : Option Nat)
    (hc : ∀ c, cid = some c → c ≠ 0) (hm : ∀ m, mid = some m → m ≠ 0) :
    ((if natTruthy cid && natTruthy mid then some u else none) ≠ none ↔
      cid ≠ none ∧ mid ≠ none) := by
  cases cid with
  | none => simp [natTruthy]
  | some c =>
    have hc' : c ≠ 0 := hc c rfl
    cases mid with
    | none => simp [natTruthy]
    | some m =>
      have hm' : m ≠ 0 := hm m rfl
      simp [natTruthy, hc', hm']

theorem isSome_ne_none {α : Type} {o : Option α} (h : o.isSome = true) : o ≠ none := by
  cases o with
  | none => simp at h
  | some _ => simp

/-- C7: for every module state, product and brand, the booking URL of the
classification result is non-null exactly when both the resolved
clothing_type_id and the resolved material_id are non-null, and when either is
missing the other result fields are still populated (the material is a
nonempty string and the subcategory id is present) — for both map_product and
map_product_legacy. -/
theorem booking_url_iff_both_ids :
    (∀ (st : MapState) (p : Product) (b : Option String),
      ((map_product st p b).qfix_url ≠ none ↔
        (map_product st p b).qfix_clothing_type_id ≠ none ∧
        (map_product st p b).qfix_material_id ≠ none) ∧
      (map_product st p b).qfix_material ≠ "" ∧
      (map_product st p b).qfix_subcategory_id ≠ none) ∧
    (∀ (st : MapState) (p : Product) (b : Option String),
      ((map_product_legacy st p b).qfix_url ≠ none ↔
        (map_product_legacy st p b).qfix_clothing_type_id ≠ none ∧
        (map_product_legacy st p b).qfix_material_id ≠ none) ∧
      (map_product_legacy st p b).qfix_material ≠ "" ∧
      (map_product_legacy st p b).qfix_subcategory_id ≠ none) := by
  constructor
  · intro st p b
    refine ⟨?_, map_material_ne_empty _ _ _ _, isSome_ne_none (subcat_id_some p.category)⟩
    exact url_iff_aux _ _ _
      (fun c hc => resolve_clothing_type_id_nonzero hc)
      (fun m hm => resolve_material_id_nonzero hm)
  · intro st p b
    refine ⟨?_, map_material_ne_empty _ _ _ _,
      isSome_ne_none (subcat_id_some_legacy p.category)⟩
    exact url_iff_aux _ _ _
      (fun c hc => legacy_ct_id_nonzero hc)
      (fun m hm => legacy_material_id_nonzero hm)

/-- C3: for every module state, product and brand, when the legacy
classification resolves a non-null canonical clothing type together with a
legacy clothing-type id, the current classification resolves the same
canonical clothing-type name and the current catalog's ID table
QFIX_CLOTHING_TYPE_IDS has an entry for that name (current coverage is a
superset of legacy). -/
theorem legacy_current_clothing_type_superset :
    ∀ (st : MapState) (p : Product) (b : Option String) (n : String) (i : Nat),
    (map_product_legacy st p b).qfix_clothing_type = some n →
    (map_product_legacy st p b).qfix_clothing_type_id = some i →
    (map_product st p b).qfix_clothing_type = some n ∧
    (dget QFIX_CLOTHING_TYPE_IDS n).isSome = true := by
  intro st p b n i h1 h2
  have hcn : map_clothing_type st p.clothing_type b p.product_name p.description = some n := h1
  refine ⟨hcn, ?_⟩
  have h2' : legacy_clothing_type_id
      (map_clothing_type st p.clothing_type b p.product_name p.description) = some i := h2
  rw [hcn] at h2'
  simp only [legacy_clothing_type_id] at h2'
  by_cases hn : n = ""
  · rw [if_pos hn] at h2'; cases h2'
  · rw [if_neg hn] at h2'
    have hall : QFIX_CLOTHING_TYPE_IDS_LEGACY.all
        (fun kv => (dget QFIX_CLOTHING_TYPE_IDS kv.1).isSome) = true := by decide
    exact List.all_eq_true.mp hall _ (dget_mem h2')

/-- Witness for C3 at a concrete product: a legacy-resolved "jeans" path maps
to "Trousers" under both catalogs and the current ID table covers it. -/
theorem legacy_current_clothing_type_superset_witness :
    (map_product_legacy DEFAULT_STATE ⟨some "jeans", none, none, none, none⟩
      none).qfix_clothing_type = some "Trousers" ∧
    (map_product DEFAULT_STATE ⟨some "jeans", none, none, none, none⟩
      none).qfix_clothing_type = some "Trousers" ∧
    (dget QFIX_CLOTHING_TYPE_IDS "Trousers").isSome = true := by
  have h1 : (map_product_legacy DEFAULT_STATE ⟨some "jeans", none, none, none, none⟩
      none).qfix_clothing_type = some "Trousers" := by decide
  have h2 : (map_product_legacy DEFAULT_STATE ⟨some "jeans", none, none, none, none⟩
      none).qfix_clothing_type_id = some 174 := by decide
  have h3 := legacy_current_clothing_type_superset DEFAULT_STATE
    ⟨some "jeans", none, none, none, none⟩ none "Trousers" 174 h1 h2
  exact ⟨h1, h3.1, h3.2⟩

/-- C4: with the built-in tables (MATERIAL_MAP and no brand overrides, the
state right after import), map_material returns a nonempty member of the
fixed canonical-material set for every input text and brand; an input whose
mapping value is null ("Metall") and an input with no match both yield the
"Other/Unsure" sentinel, as does a missing text — the function never fails
and never returns empty or null. -/
theorem map_material_sentinel_totality :
    (∀ (t b : Option String),
      map_material MATERIAL_MAP [] t b ∈ VALID_MATERIALS ∧
      map_material MATERIAL_MAP [] t b ≠ "") ∧
    map_material MATERIAL_MAP [] (some "Metall") none = "Other/Unsure" ∧
    map_material MATERIAL_MAP [] (some "helt okänt material") none = "Other/Unsure" ∧
    map_material MATERIAL_MAP [] none none = "Other/Unsure" := by
  constructor
  · intro t b
    refine ⟨?_, map_material_ne_empty _ _ _ _⟩
    cases t with
    | none => exact (by decide : ("Other/Unsure" : String) ∈ VALID_MATERIALS)
    | some s =>
      by_cases hs : s = ""
      · subst hs
        exact (by decide : ("Other/Unsure" : String) ∈ VALID_MATERIALS)
      · have heq : map_material MATERIAL_MAP [] (some s) b =
            map_material_body MATERIAL_MAP (brandMatFor [] b) s := by
          simp [map_material, hs]
        rw [heq]
        have hb : brandMatFor [] b = [] := by
          cases b with
          | none => rfl
          | some x =>
            by_cases hx : x = "" <;> simp [brandMatFor, hx, dgetD, dget]
        rw [hb]
        exact map_material_body_canonical s
  · exact ⟨by decide, by decide, rfl⟩

/-- C5: whenever the percentage-first parse of the material text yields at
least one `(pct, name)` pair, map_material considers the names in decreasing
order of percentage with ties broken by first occurrence — the order
`pySortDesc pairKey` of the parsed pairs, which is sorted descending, a
permutation of the pairs, and stable (the filter at every key value keeps the
original order) — and returns the canonical material of the first name that
resolves, the brand override table being consulted before the global table. -/
theorem map_material_percentage_priority :
    ∀ (mm : List (String × Option String)) (bmat : List (String × List (String × String)))
      (t : String) (brand : Option String) (v : String),
    findall1 t ≠ [] →
    material_resolve (brandMatFor bmat brand) mm (findall1 t) = some v →
    map_material mm bmat (some t) brand = v ∧
    List.Pairwise (fun a b => pairKey b ≤ pairKey a) (pySortDesc pairKey (findall1 t)) ∧
    (pySortDesc pairKey (findall1 t)).Perm (findall1 t) ∧
    (∀ n, (pySortDesc pairKey (findall1 t)).filter (fun q => pairKey q == n) =
      (findall1 t).filter (fun q => pairKey q == n)) ∧
    (∀ (bmap : List (String × String)) (mm2 : List (String × Option String)) (nm w : String),
      dget bmap nm = some w → w ≠ "" → resolveName bmap mm2 nm = some w) := by
  intro mm bmat t brand v h1 h2
  have ht : t ≠ "" := by
    intro h
    rw [h] at h1
    exact h1 rfl
  have hv : v ≠ "" := material_resolve_ne_empty h2
  refine ⟨?_, pySortDesc_sorted _ _, pySortDesc_perm _ _,
    fun n => pySortDesc_filter_stable _ _ _, ?_⟩
  · have heq : map_material mm bmat (some t) brand =
        map_material_body mm (brandMatFor bmat brand) t := by
      simp [map_material, ht]
    rw [heq]
    simp only [map_material_body]
    rw [if_neg h1, h2]
    simp [strTruthy, hv]
  · intro bmap mm2 nm w hw hwne
    simp [resolveName, hw, hwne]

/-- Witness for C5 at the concrete composition "7% Ull". -/
theorem map_material_percentage_priority_witness :
    map_material MATERIAL_MAP [] (some "7% Ull") none = "Linen/Wool" := by
  have h1 : findall1 "7% Ull" ≠ [] := by decide
  have h2 : material_resolve (brandMatFor [] none) MATERIAL_MAP (findall1 "7% Ull") =
      some "Linen/Wool" := by decide
  exact (map_material_percentage_priority MATERIAL_MAP [] "7% Ull" none "Linen/Wool" h1 h2).1

theorem map_category_ne_empty (c : Option String) : map_category c ≠ "" := by
  cases c with
  | none => decide
  | some s =>
    by_cases hs : s = ""
    · simp only [map_category, if_pos hs]; decide
    · simp only [map_category, if_neg hs]
      rcases hg : dget CATEGORY_MAP (pyLowerStr s) with _ | v
      · simp only [Option.getD_none]; decide
      · simp only [Option.getD_some]
        have hall : CATEGORY_MAP.all (fun kv => kv.2 != "") = true := by decide
        have := List.all_eq_true.mp hall _ (dget_mem hg)
        simpa using this

/-- C10: map_category is total and never returns null — a missing or empty
category, or one absent from CATEGORY_MAP, yields the default
"Women's Clothing", so such a product is classified with the Women's Clothing
subcategory and its subcategory id 55. -/
theorem map_category_default_totality :
    (∀ c : Option String, map_category c ≠ "" ∧
      (dget QFIX_SUBCATEGORY_IDS (map_category c)).isSome = true) ∧
    map_category none = "Women's Clothing" ∧
    map_category (some "") = "Women's Clothing" ∧
    (∀ s : String, dget CATEGORY_MAP (pyLowerStr s) = none →
      map_category (some s) = "Women's Clothing") ∧
    (∀ (st : MapState) (p : Product) (b : Option String) (s : String),
      p.category = some s → dget CATEGORY_MAP (pyLowerStr s) = none →
      (map_product st p b).qfix_subcategory = "Women's Clothing" ∧
      (map_product st p b).qfix_subcategory_id = some 55) := by
  have hdef : ∀ s : String, dget CATEGORY_MAP (pyLowerStr s) = none →
      map_category (some s) = "Women's Clothing" := by
    intro s h
    by_cases hs : s = ""
    · simp [map_category, hs]
    · simp [map_category, hs, h]
  refine ⟨fun c => ⟨map_category_ne_empty c, subcat_id_some c⟩, rfl, rfl, hdef, ?_⟩
  intro st p b s hc hnone
  have h1 : (map_product st p b).qfix_subcategory = map_category p.category := rfl
  have h2 : (map_product st p b).qfix_subcategory_id =
      dget QFIX_SUBCATEGORY_IDS (map_category p.category) := rfl
  rw [h1, h2, hc, hdef s hnone]
  exact ⟨rfl, by decide⟩

/-- Witness for C10 at the unrecognized category "galaxy". -/
theorem map_category_default_totality_witness :
    map_category (some "galaxy") = "Women's Clothing" ∧
    (map_product DEFAULT_STATE ⟨none, none, none, none, some "galaxy"⟩
      none).qfix_subcategory_id = some 55 := by
  have h := map_category_default_totality
  refine ⟨h.2.2.2.1 "galaxy" (by decide), ?_⟩
  exact (h.2.2.2.2 DEFAULT_STATE ⟨none, none, none, none, some "galaxy"⟩ none "galaxy"
    rfl (by decide)).2

theorem resolve_material_id_mem {c : Nat} {mat : String} {m : Nat}
    (h : _resolve_material_id (some c) mat = some m) :
    m ∈ (dgetD VALID_MATERIAL_IDS c []).map (·.1) := by
  simp only [_resolve_material_id] at h
  by_cases hc : c = 0
  · rw [if_pos hc] at h; cases h
  · rw [if_neg hc] at h
    by_cases hm : mat = ""
    · rw [if_pos hm] at h; cases h
    · rw [if_neg hm] at h
      split at h
      · rename_i j heq
        injection h with h2
        subst h2
        exact rlookup_mem heq
      · exact rlookup_mem h

/-- C9: every material id produced by `_resolve_material_id` is a key of the
clothing type's valid-material row of VALID_MATERIAL_IDS — so every
(clothing_type_id, material_id) pair produced by map_product is a valid
combination of the current catalog — and for clothing type 206 (Knee-high
boots), whose row has no "Other/Unsure" entry, an unmatched material resolves
to no material id at all. -/
theorem resolve_material_id_validity :
    (∀ (c : Nat) (mat : String) (m : Nat),
      _resolve_material_id (some c) mat = some m →
      m ∈ (dgetD VALID_MATERIAL_IDS c []).map (·.1)) ∧
    (∀ mat : String, mat ≠ "Standard textile" → mat ≠ "Leather" → mat ≠ "Suede" →
      _resolve_material_id (some 206) mat = none) ∧
    (∀ (st : MapState) (p : Product) (b : Option String) (c m : Nat),
      (map_product st p b).qfix_clothing_type_id = some c →
      (map_product st p b).qfix_material_id = some m →
      m ∈ (dgetD VALID_MATERIAL_IDS c []).map (·.1)) := by
  refine ⟨fun c mat m h => resolve_material_id_mem h, ?_, ?_⟩
  · intro mat h1 h2 h3
    by_cases hm : mat = ""
    · simp [_resolve_material_id, hm]
    · have hval : dgetD VALID_MATERIAL_IDS 206 [] =
          [(189, "Standard textile"), (187, "Leather"), (188, "Suede")] := by decide
      simp only [_resolve_material_id]
      rw [if_neg (by decide : ¬ (206 = 0)), if_neg hm, hval]
      have hnone : rlookup [(189, "Standard textile"), (187, "Leather"), (188, "Suede")]
          mat = none := by
        simp [rlookup, Ne.symm h1, Ne.symm h2, Ne.symm h3]
      rw [hnone]
      decide
  · intro st p b c m h1 h2
    have h1' : _resolve_clothing_type_id
        (map_clothing_type st p.clothing_type b p.product_name p.description)
        (map_category p.category) = some c := h1
    have h2' : _resolve_material_id
        (_resolve_clothing_type_id
          (map_clothing_type st p.clothing_type b p.product_name p.description)
          (map_category p.category))
        (map_material st.mm st.brandMat p.material_composition b) = some m := h2
    rw [h1'] at h2'
    exact resolve_material_id_mem h2'

/-- Witness for C9: Silk on Skirt / Dress (id 66) resolves to material id 213,
a valid combination, and 206 with a textile material yields no id. -/
theorem resolve_material_id_validity_witness :
    (_resolve_material_id (some 66) "Silk" = some 213 ∧
      213 ∈ (dgetD VALID_MATERIAL_IDS 66 []).map (·.1)) ∧
    _resolve_material_id (some 206) "Linen/Wool" = none := by
  have h := resolve_material_id_validity
  refine ⟨⟨by decide, h.1 66 "Silk" 213 (by decide)⟩, ?_⟩
  exact h.2.1 "Linen/Wool" (by decide) (by decide) (by decide)

theorem aux_exact_hit (ctm : List (String × Option String)) (gkw : List (String × String))
    (bm bkw : List (String × String)) (t b : String) (pn d : Option String)
    (first : String) (rest : List String) (v : String)
    (hb : b ≠ "") (ht : t ≠ "") (hparts : partsOf t = first :: rest)
    (hres : (match dget bm (joinWith " > " (first :: rest)) with
             | some w => some w
             | none => dget bm first) = some v) :
    map_clothing_type_aux ctm gkw bm bkw (some t) (some b) pn d = some v := by
  simp only [map_clothing_type_aux, hparts, if_neg ht]
  rw [if_neg hb]
  rw [hres]

/-- C6: a brand's exact clothing-type override always wins, for that brand
only. First part: when the brand's exact map holds key K, map_clothing_type
with that brand returns the override's value for a path whose joined
normalized form is K, or whose first segment is K when the joined form has no
override entry — whatever the global maps `ctm`/`gkw` say (they are
universally quantified, so a global exact entry for K cannot change the
result). Second part: for a call with no brand or any other brand, the result
is the same as with that brand's exact-override entry absent (any state
agreeing on every other brand). -/
theorem brand_exact_override_priority :
    (∀ (st : MapState) (b : String) (bm : List (String × String)) (K v t : String)
      (pn d : Option String),
      b ≠ "" →
      dget st.brandExact b = some bm →
      dget bm K = some v →
      t ≠ "" →
      (joinWith " > " (partsOf t) = K ∨
        (dget bm (joinWith " > " (partsOf t)) = none ∧ (partsOf t).head? = some K)) →
      partsOf t ≠ [] →
      map_clothing_type st (some t) (some b) pn d = some v) ∧
    (∀ (st : MapState) (be2 : List (String × List (String × String))) (b0 : String),
      (∀ b, b ≠ b0 → dget be2 b = dget st.brandExact b) →
      ∀ (ct : Option String) (brand : Option String) (pn d : Option String),
      (brand = none ∨ ∃ b, brand = some b ∧ b ≠ b0) →
      map_clothing_type { st with brandExact := be2 } ct brand pn d =
        map_clothing_type st ct brand pn d) := by
  constructor
  · intro st b bm K v t pn d hb hbm hK ht hcase hp
    rcases hparts : partsOf t with _ | ⟨first, rest⟩
    · exact absurd hparts hp
    have hbm' : bmExactOf st (some b) = bm := by simp [bmExactOf, dgetD, hbm]
    unfold map_clothing_type
    rw [hbm']
    refine aux_exact_hit st.ctm st.gkw bm (bmKwOf st (some b)) t b pn d first rest v
      hb ht hparts ?_
    rcases hcase with hj | ⟨hnone, hhead⟩
    · rw [hparts] at hj
      rw [hj, hK]
    · rw [hparts] at hnone hhead
      simp only [List.head?_cons, Option.some.injEq] at hhead
      rw [hnone, hhead]
      exact hK
  · intro st be2 b0 hagree ct brand pn d hbr
    have h1 : bmExactOf { st with brandExact := be2 } brand = bmExactOf st brand := by
      rcases hbr with rfl | ⟨b, rfl, hne⟩
      · rfl
      · simp [bmExactOf, dgetD, hagree b hne]
    simp only [map_clothing_type]
    rw [h1]
    rfl

/-- Witness for C6: the "acme" override of "klanningar" wins over the global
exact entry for that key, and a call for another brand is unaffected by the
override's presence. -/
theorem brand_exact_override_priority_witness :
    map_clothing_type ACME_STATE (some "klanningar") (some "acme") none none = some "Coat" ∧
    map_clothing_type ACME_STATE (some "klanningar") (some "kappahl") none none =
      map_clothing_type DEFAULT_STATE (some "klanningar") (some "kappahl") none none := by
  have h := brand_exact_override_priority
  constructor
  · refine h.1 ACME_STATE "acme" [("klanningar", "Coat")] "klanningar" "Coat" "klanningar"
      none none (by decide) (by decide) (by decide) (by decide) (Or.inl (by decide))
      (by decide)
  · refine h.2 DEFAULT_STATE [("acme", [("klanningar", "Coat")])] "acme" ?_ (some "klanningar")
      (some "kappahl") none none (Or.inr ⟨"kappahl", rfl, by decide⟩)
    intro b hb
    simp [dget, Ne.symm hb]

/-- C8: the admin add-mapping operation validates the `to` target against the
fixed set of valid canonical targets before inserting. A target outside the
set yields a synchronous 400 error naming the valid set, with both mapping
tables unchanged; a valid target yields a 200 response and exactly one
whole-entry insert/replace: the `from` key now maps to `to` and every other
key of both tables is untouched. A missing body is rejected with both tables
unchanged. -/
theorem add_mapping_validation_atomicity :
    (∀ (ctm mm : List (String × Option String)) (fr to2 : String),
      pyLowerStr (pyStrip fr) ≠ "" → pyStrip to2 ≠ "" →
      (dget QFIX_CLOTHING_TYPE_IDS (pyStrip to2) = none →
        add_mapping ctm mm (some ⟨some "clothing_type", some fr, some to2⟩) =
          (⟨400, some ("Invalid QFix clothing type: " ++ pyStrip to2),
            pySortStrAsc (QFIX_CLOTHING_TYPE_IDS.map (·.1))⟩, ctm, mm)) ∧
      ((dget QFIX_CLOTHING_TYPE_IDS (pyStrip to2)).isSome = true →
        (add_mapping ctm mm (some ⟨some "clothing_type", some fr, some to2⟩)).1 =
          ⟨200, none, []⟩ ∧
        dget (add_mapping ctm mm (some ⟨some "clothing_type", some fr, some to2⟩)).2.1
          (pyLowerStr (pyStrip fr)) = some (some (pyStrip to2)) ∧
        (∀ k, k ≠ pyLowerStr (pyStrip fr) →
          dget (add_mapping ctm mm (some ⟨some "clothing_type", some fr, some to2⟩)).2.1 k =
            dget ctm k) ∧
        (add_mapping ctm mm (some ⟨some "clothing_type", some fr, some to2⟩)).2.2 = mm)) ∧
    (∀ (ctm mm : List (String × Option String)) (fr to2 : String),
      pyLowerStr (pyStrip fr) ≠ "" → pyStrip to2 ≠ "" →
      (VALID_MATERIALS.contains (pyStrip to2) = false →
        add_mapping ctm mm (some ⟨some "material", some fr, some to2⟩) =
          (⟨400, some ("Invalid QFix material: " ++ pyStrip to2),
            pySortStrAsc VALID_MATERIALS⟩, ctm, mm)) ∧
      (VALID_MATERIALS.contains (pyStrip to2) = true →
        (add_mapping ctm mm (some ⟨some "material", some fr, some to2⟩)).1 =
          ⟨200, none, []⟩ ∧
        dget (add_mapping ctm mm (some ⟨some "material", some fr, some to2⟩)).2.2
          (pyLowerStr (pyStrip fr)) = some (some (pyStrip to2)) ∧
        (∀ k, k ≠ pyLowerStr (pyStrip fr) →
          dget (add_mapping ctm mm (some ⟨some "material", some fr, some to2⟩)).2.2 k =
            dget mm k) ∧
        (add_mapping ctm mm (some ⟨some "material", some fr, some to2⟩)).2.1 = ctm)) ∧
    (∀ ctm mm : List (String × Option String),
      add_mapping ctm mm none = (⟨400, some "JSON body required", []⟩, ctm, mm)) := by
  refine ⟨?_, ?_, fun ctm mm => rfl⟩
  · intro ctm mm fr to2 hfr hto
    have hreq : ¬ (("clothing_type" : String) = "" ∨ pyLowerStr (pyStrip fr) = "" ∨
        pyStrip to2 = "") := by
      push_neg
      exact ⟨by decide, hfr, hto⟩
    constructor
    · intro hnone
      simp only [add_mapping, Option.getD_some]
      rw [if_neg hreq, if_pos trivial, hnone]
      rfl
    · intro hsome
      have hN : (dget QFIX_CLOTHING_TYPE_IDS (pyStrip to2)).isNone = false := by
        rcases hval : dget QFIX_CLOTHING_TYPE_IDS (pyStrip to2) with _ | j
        · rw [hval] at hsome; simp at hsome
        · rfl
      have hout : add_mapping ctm mm (some ⟨some "clothing_type", some fr, some to2⟩) =
          (⟨200, none, []⟩, dset ctm (pyLowerStr (pyStrip fr)) (some (pyStrip to2)), mm) := by
        simp only [add_mapping, Option.getD_some]
        rw [if_neg hreq, if_pos trivial]
        rw [if_neg (by simp [hN])]
      rw [hout]
      refine ⟨rfl, ?_, ?_, rfl⟩
      · rw [dget_dset, if_pos rfl]
      · intro k hk
        rw [dget_dset, if_neg (fun h => hk h.symm)]
  · intro ctm mm fr to2 hfr hto
    have hreq : ¬ (("material" : String) = "" ∨ pyLowerStr (pyStrip fr) = "" ∨
        pyStrip to2 = "") := by
      push_neg
      exact ⟨by decide, hfr, hto⟩
    constructor
    · intro hfalse
      simp only [add_mapping, Option.getD_some]
      rw [if_neg hreq, if_neg (by decide : ¬ ("material" : String) = "clothing_type"),
        if_pos trivial]
      rw [if_pos (by rw [hfalse]; rfl)]
    · intro htrue
      have hout : add_mapping ctm mm (some ⟨some "material", some fr, some to2⟩) =
          (⟨200, none, []⟩, ctm, dset mm (pyLowerStr (pyStrip fr)) (some (pyStrip to2))) := by
        simp only [add_mapping, Option.getD_some]
        rw [if_neg hreq, if_neg (by decide : ¬ ("material" : String) = "clothing_type"),
          if_pos trivial]
        rw [if_neg (by rw [htrue]; decide)]
      rw [hout]
      refine ⟨rfl, ?_, ?_, rfl⟩
      · rw [dget_dset, if_pos rfl]
      · intro k hk
        rw [dget_dset, if_neg (fun h => hk h.symm)]

/-- Witness for C8: an invalid clothing-type target is rejected with the
tables untouched, and a valid one performs the single insert. -/
theorem add_mapping_validation_atomicity_witness :
    add_mapping CLOTHING_TYPE_MAP MATERIAL_MAP
      (some ⟨some "clothing_type", some "festbyxor", some "NotAType"⟩) =
      (⟨400, some "Invalid QFix clothing type: NotAType",
        pySortStrAsc (QFIX_CLOTHING_TYPE_IDS.map (·.1))⟩, CLOTHING_TYPE_MAP, MATERIAL_MAP) ∧
    (add_mapping CLOTHING_TYPE_MAP MATERIAL_MAP
      (some ⟨some "clothing_type", some "festbyxor", some "Coat"⟩)).1 = ⟨200, none, []⟩ ∧
    dget (add_mapping CLOTHING_TYPE_MAP MATERIAL_MAP
      (some ⟨some "clothing_type", some "festbyxor", some "Coat"⟩)).2.1 "festbyxor" =
      some (some "Coat") := by
  have h := add_mapping_validation_atomicity
  have h1 := h.1 CLOTHING_TYPE_MAP MATERIAL_MAP "festbyxor" "NotAType" (by decide) (by decide)
  have h2 := h.1 CLOTHING_TYPE_MAP MATERIAL_MAP "festbyxor" "Coat" (by decide) (by decide)
  refine ⟨h1.1 (by decide), ?_, ?_⟩
  · exact (h2.2 (by decide)).1
  · exact (h2.2 (by decide)).2.1

/-- C2 (amended): an action name excluded by a matching KeywordExclusionRule
for category C never survives from the AI-ranked pool — any action with such a
name in the merge output for C can only come from the keyword-injection pass,
which does not honor the exclusion set. -/
theorem merge_exclusion_filters_ai_pool :
    ∀ (top : List (String × List SvcAction)) (pt : String) (svcs : List SvcCat)
      (c : String) (a : SvcAction),
    a ∈ dgetD (_inject_keyword_actions top pt svcs) c [] →
    a.name ∈ excludedNames pt c →
    a ∈ injectedFor pt svcs c := by
  intro top pt svcs c a hmem hexc
  by_cases hpt : pt = ""
  · rw [hpt, excludedNames_empty] at hexc
    simp at hexc
  · have hexcl : anyExcl pt = true := anyExcl_of_mem hexc
    simp only [_inject_keyword_actions, if_neg hpt] at hmem
    have hcond : (!anyInj pt && !anyExcl pt) = false := by
      rw [hexcl]
      simp
    rw [hcond] at hmem
    simp only [Bool.false_eq_true, if_false, hexcl, if_true] at hmem
    by_cases hinj : anyInj pt = true
    · rw [hinj] at hmem
      simp only [if_true] at hmem
      rcases inject_fold_mem pt svcs (injectedCats pt) (applyExcl pt top) c a hmem with hL | hR
      · exact absurd hexc (dgetD_applyExcl pt top c hL).2
      · exact hR
    · have hinj' : anyInj pt = false := by simpa using hinj
      rw [hinj'] at hmem
      simp only [Bool.false_eq_true, if_false] at hmem
      have := dgetD_trim5 (applyExcl pt top) c hmem
      exact absurd hexc (dgetD_applyExcl pt top c this).2

/-- Witness for C2's amended statement: for the product text
"leggings med zip" the zipper injection rule fires, and the "Replace zipper"
entry found in the merge output is exactly the injected candidate. -/
theorem merge_exclusion_filters_ai_pool_witness :
    (⟨501, "Replace zipper", some 245⟩ : SvcAction) ∈ injectedFor "leggings med zip"
      [⟨"repair-services", [⟨501, "Replace zipper", some 245⟩]⟩] "repair" := by
  exact merge_exclusion_filters_ai_pool [] "leggings med zip"
    [⟨"repair-services", [⟨501, "Replace zipper", some 245⟩]⟩] "repair"
    ⟨501, "Replace zipper", some 245⟩ (by decide) (by decide)

/-- Counterexample to C2 as stated: the product text "leggings med zip"
matches the leggings exclusion rule for category "repair", whose
exclude_actions list "Replace zipper" — yet the merge output for "repair"
contains an action named "Replace zipper" (re-added by the zipper injection
rule, which the exclusion pass does not filter). -/
theorem merge_excluded_action_reinjected :
    (∃ r ∈ KEYWORD_EXCLUSION_RULES, kwsMatch "leggings med zip" r.keywords = true ∧
      r.category = "repair" ∧ "Replace zipper" ∈ r.exclude_actions) ∧
    ∃ a ∈ dgetD (_inject_keyword_actions []
        "leggings med zip" [⟨"repair-services", [⟨501, "Replace zipper", some 245⟩]⟩])
        "repair" [],
      a.name = "Replace zipper" := by decide

/-- C1 evaluation (code bug): with product text "zip" the zipper injection
rule matches for category "repair", so the merge takes the injection path —
and then the "adjustment" list of the AI pool (6 ≤ 10 entries) is returned
untrimmed, with 6 > 5 entries, although the contract promises at most 5 per
category. -/
theorem merge_untrimmed_category_evaluation :
    (dgetD (_inject_keyword_actions
      [("repair", [⟨1, "Repair seam", some 100⟩]),
       ("adjustment",
        [⟨11, "B1", some 10⟩, ⟨12, "B2", some 10⟩, ⟨13, "B3", some 10⟩,
         ⟨14, "B4", some 10⟩, ⟨15, "B5", some 10⟩, ⟨16, "B6", some 10⟩])]
      "zip" []) "adjustment" []).length = 6 := by decide
